import Mathlib

/-!
Verification development for `selfdrive/controls/lib/events.py`: the per-tick
event-to-alert arbitration engine (`Events`, `Alert`, the `EVENTS` catalog and
its helper alert classes and callback factories).

Conventions of the shallow embedding:

* Python floats that take part in arbitration arithmetic (`creation_delay`,
  `DT_CTRL`, durations, `alert_rate`) are embedded as `ℚ`.  Every numeric
  literal in the source is exactly representable, and for the catalog's
  creation delays (0, 0.5, 1.0, 300.0 seconds against a 0.01 s tick) rational
  and IEEE-754 arithmetic agree on every comparison the code performs.
* The source file's Korean text is byte-corrupted (a mix of CP949 bytes and
  UTF-8 replacement characters), so the exact intended text is unrecoverable.
  String literals here transcribe the raw bytes of the source one-for-one via
  the Latin-1 byte-to-codepoint map; this keeps distinct source strings
  distinct and equal source strings equal, which is all any property needs.
* Python's dynamic typing lets the catalog store mistyped field values (the
  `lkasButtonOff` entry passes one string argument too many to `Alert`), so
  the descriptor fields that can receive such values are embedded as a small
  tagged union `PyVal` of the value kinds that actually occur.
* The global mutable `EVENTS` dict is embedded by explicit state passing: the
  operations that can read or write it take the current catalog value and the
  writers return the updated one.  A Python `KeyError` is embedded as `none`.
-/

/-- Modelled from the spec: `log.ControlsState.AlertStatus`, an enum of the
external cereal schema (not under `src/`). -/
inductive AlertStatus where
  | normal
  | userPrompt
  | critical
deriving DecidableEq

/-- Modelled from the spec: `log.ControlsState.AlertSize`, an enum of the
external cereal schema (not under `src/`). -/
inductive AlertSize where
  | none
  | small
  | mid
  | full
deriving DecidableEq

/-- Modelled from the spec: `car.CarControl.HUDControl.VisualAlert`, an enum of
the external cereal schema (not under `src/`); only the enumerants the catalog
uses are listed. -/
inductive VisualAlert where
  | none
  | fcw
  | steerRequired
  | brakePressed
deriving DecidableEq

/-- Modelled from the spec: `car.CarControl.HUDControl.AudibleAlert`, an enum
of the external cereal schema (not under `src/`); only the enumerants the
catalog uses are listed. -/
inductive AudibleAlert where
  | none
  | chimeEngage
  | chimeDisengage
  | chimeError
  | chimePrompt
  | chimeWarning1
  | chimeWarning2Repeat
  | chimeWarningRepeat
  | chimeSlowingDownSpeed
deriving DecidableEq

/-- Alert priority `Priority.LOWEST` (source `class Priority(IntEnum)`). -/
def Priority.LOWEST : Nat := 0

/-- Alert priority `Priority.LOWER`. -/
def Priority.LOWER : Nat := 1

/-- Alert priority `Priority.LOW`. -/
def Priority.LOW : Nat := 2

/-- Alert priority `Priority.MID`. -/
def Priority.MID : Nat := 3

/-- Alert priority `Priority.HIGH`. -/
def Priority.HIGH : Nat := 4

/-- Alert priority `Priority.HIGHEST`. -/
def Priority.HIGHEST : Nat := 5

/-- Event type `ET.ENABLE` (source `class ET`). -/
def ET.ENABLE : String := "enable"

/-- Event type `ET.PRE_ENABLE`. -/
def ET.PRE_ENABLE : String := "preEnable"

/-- Event type `ET.NO_ENTRY`. -/
def ET.NO_ENTRY : String := "noEntry"

/-- Event type `ET.WARNING`. -/
def ET.WARNING : String := "warning"

/-- Event type `ET.USER_DISABLE`. -/
def ET.USER_DISABLE : String := "userDisable"

/-- Event type `ET.SOFT_DISABLE`. -/
def ET.SOFT_DISABLE : String := "softDisable"

/-- Event type `ET.IMMEDIATE_DISABLE`. -/
def ET.IMMEDIATE_DISABLE : String := "immediateDisable"

/-- Event type `ET.PERMANENT`. -/
def ET.PERMANENT : String := "permanent"

/-- Modelled from the spec: `DT_CTRL`, the fixed control-tick period from
`common.realtime` (not under `src/`).  The spec fixes the control loop at one
invocation per tick of typically 10 ms (100 Hz), which is the value of
`DT_CTRL`. -/
def DT_CTRL : ℚ := 1 / 100

/-- Tagged union of the value kinds a Python `Alert` field can actually hold
in this file.  The typed constructor arguments of `mkAlert` produce the tagged
enum values; the mistyped `lkasButtonOff` entry produces the others. -/
inductive PyVal where
  | str (s : String)
  | status (v : AlertStatus)
  | size (v : AlertSize)
  | prio (n : Nat)
  | visual (v : VisualAlert)
  | audible (v : AudibleAlert)
  | num (q : ℚ)
deriving DecidableEq

/-- The `Alert` object of the source: the fields set in `Alert.__init__`,
including the bookkeeping fields `start_time`, `alert_type` and `event_type`
initialised there and overwritten by `Events.create_alerts`. -/
structure Alert where
  alert_text_1 : String
  alert_text_2 : String
  alert_status : PyVal
  alert_size : PyVal
  alert_priority : PyVal
  visual_alert : PyVal
  audible_alert : PyVal
  duration_sound : PyVal
  duration_hud_alert : ℚ
  duration_text : ℚ
  alert_rate : ℚ
  creation_delay : ℚ
  start_time : ℚ
  alert_type : String
  event_type : Option String
deriving DecidableEq

/-- Constructor `Alert.__init__` with correctly-typed arguments, in the positional order of
the source (with `alert_rate` and `creation_delay`, which default to `0.`,
passed explicitly); `start_time = 0.`, `alert_type = ""` and
`event_type = None` as in the constructor body. -/
def mkAlert (alert_text_1 alert_text_2 : String) (alert_status : AlertStatus)
    (alert_size : AlertSize) (alert_priority : Nat) (visual_alert : VisualAlert)
    (audible_alert : AudibleAlert) (duration_sound duration_hud_alert duration_text : ℚ)
    (alert_rate : ℚ) (creation_delay : ℚ) : Alert :=
  { alert_text_1 := alert_text_1
    alert_text_2 := alert_text_2
    alert_status := PyVal.status alert_status
    alert_size := PyVal.size alert_size
    alert_priority := PyVal.prio alert_priority
    visual_alert := PyVal.visual visual_alert
    audible_alert := PyVal.audible audible_alert
    duration_sound := PyVal.num duration_sound
    duration_hud_alert := duration_hud_alert
    duration_text := duration_text
    alert_rate := alert_rate
    creation_delay := creation_delay
    start_time := 0
    alert_type := ""
    event_type := none }

/-- Subclass `NoEntryAlert`: `Alert` subclass fixing text 1, status `normal`, size
`mid`, priority `LOW`, sound duration `.4` and text duration `3.`.  The Python
defaults (`audible_alert=chimeError`, `visual_alert=none`,
`duration_hud_alert=2.`) are passed explicitly at every use site. -/
def NoEntryAlert (alert_text_2 : String) (audible_alert : AudibleAlert)
    (visual_alert : VisualAlert) (duration_hud_alert : ℚ) : Alert :=
  mkAlert "ï¿½ï¿½ï¿½ï¿½ï¿½ï¿½ï¿½Ï·ï¿½ ï¿½ï¿½ï¿½Ò°ï¿½" alert_text_2 AlertStatus.normal
    AlertSize.mid Priority.LOW visual_alert audible_alert 0.4 duration_hud_alert 3 0 0

/-- Subclass `SoftDisableAlert`: `Alert` subclass with status `userPrompt`, size
`full`, priority `MID`, `steerRequired`/`chimeError` cues and durations
`.1, 2., 2.`. -/
def SoftDisableAlert (alert_text_2 : String) : Alert :=
  mkAlert "ï¿½Úµï¿½ï¿½ï¿½ ï¿½ï¿½ï¿½ ï¿½ï¿½ï¿½ï¿½Ö¼ï¿½ï¿½ï¿½" alert_text_2 AlertStatus.userPrompt
    AlertSize.full Priority.MID VisualAlert.steerRequired AudibleAlert.chimeError 0.1 2 2 0 0

/-- The Python default for `ImmediateDisableAlert`'s `alert_text_1`. -/
def immediateDisableText1 : String := "ï¿½Úµï¿½ï¿½ï¿½ ï¿½ï¿½ï¿½ ï¿½ï¿½ï¿½ï¿½Ö¼ï¿½ï¿½ï¿½"

/-- Subclass `ImmediateDisableAlert`: `Alert` subclass with status `critical`, size
`full`, priority `HIGHEST`, `steerRequired`/`chimeWarningRepeat` cues and
durations `2.2, 3., 4.`; `alert_text_1` defaults to `immediateDisableText1`
and is passed explicitly at every use site. -/
def ImmediateDisableAlert (alert_text_2 : String) (alert_text_1 : String) : Alert :=
  mkAlert alert_text_1 alert_text_2 AlertStatus.critical
    AlertSize.full Priority.HIGHEST VisualAlert.steerRequired AudibleAlert.chimeWarningRepeat 2.2 3 4 0 0

/-- Subclass `EngagementAlert`: `Alert` subclass with empty texts, status `normal`,
size `none`, priority `MID` and durations `.2, 0., 0.`.  (The Python default
`audible_alert=True` is never used: every call site passes an enum value.) -/
def EngagementAlert (audible_alert : AudibleAlert) : Alert :=
  mkAlert "" "" AlertStatus.normal AlertSize.none Priority.MID VisualAlert.none
    audible_alert 0.2 0 0 0 0

/-- Subclass `NormalPermanentAlert`: `Alert` subclass with status `normal`, size `mid`,
priority `LOWER`, no cues and durations `0., 0., .2`. -/
def NormalPermanentAlert (alert_text_1 alert_text_2 : String) : Alert :=
  mkAlert alert_text_1 alert_text_2 AlertStatus.normal AlertSize.mid Priority.LOWER
    VisualAlert.none AudibleAlert.none 0 0 0.2 0 0

/-- Modelled from the spec: the runtime snapshot an alert callback receives
(`CP: car.CarParams`, `sm: messaging.SubMaster`, `metric: bool` — all external
to `src/`), flattened to exactly the fields the five callbacks in this file
read. -/
structure CallbackArgs where
  minSteerSpeed : ℚ
  carName : String
  metric : Bool
  calPerc : Int
  hwType : Nat
  alcTimer : Int

/-- Modelled from the spec: `Conversions.MS_TO_KPH` from `selfdrive.config`
(not under `src/`), the exact m/s → km/h factor. -/
def CV_MS_TO_KPH : ℚ := 3.6

/-- Modelled from the spec: `Conversions.MS_TO_MPH` from `selfdrive.config`
(not under `src/`), the m/s → mph factor; affects display text only. -/
def CV_MS_TO_MPH : ℚ := 2.23694

/-- Modelled from the spec: `MIN_SPEED_FILTER` from
`selfdrive.locationd.calibrationd` (not under `src/`); affects display text
only. -/
def MIN_SPEED_FILTER : ℚ := 6.7056

/-- Modelled from the spec: `log.HealthData.HwType.uno` of the external cereal
schema; distinct marker value, compared for equality only. -/
def HwType.uno : Nat := 4

/-- Modelled from the spec: `log.HealthData.HwType.dos` of the external cereal
schema; distinct marker value, compared for equality only. -/
def HwType.dos : Nat := 5

/-- Python `int()` truncation toward zero on a rational. -/
def ratTrunc (q : ℚ) : Int :=
  if q < 0 then -Int.floor (-q) else Int.floor q

/-- Callback `below_steer_speed_alert`.  (Python's `round` uses
round-half-to-even; Mathlib's `round` rounds half up.  They differ only on
exact half-integers of the displayed speed, which affects display text
only.) -/
def below_steer_speed_alert (args : CallbackArgs) : Alert :=
  let speed : Int := round (args.minSteerSpeed * (if args.metric then CV_MS_TO_KPH else CV_MS_TO_MPH))
  let unit : String := if args.metric then "km/h" else "mph"
  mkAlert "ï¿½Úµï¿½ï¿½ï¿½ ï¿½ï¿½ï¿½ï¿½Ö¼ï¿½ï¿½ï¿½"
    (toString speed ++ " " ++ unit ++ " ï¿½Ì»ï¿½ï¿½ï¿½ ï¿½Óµï¿½ï¿½ï¿½ï¿½ï¿½ ï¿½Úµï¿½ï¿½ï¿½ï¿½ï¿½Ë´Ï´ï¿½")
    AlertStatus.userPrompt AlertSize.mid Priority.MID VisualAlert.steerRequired
    AudibleAlert.none 0 0.4 0.3 0 0

/-- Callback `calibration_incomplete_alert`. -/
def calibration_incomplete_alert (args : CallbackArgs) : Alert :=
  let speed : Int := ratTrunc (MIN_SPEED_FILTER * (if args.metric then CV_MS_TO_KPH else CV_MS_TO_MPH))
  let unit : String := if args.metric then "km/h" else "mph"
  mkAlert ("Ä¶ï¿½ï¿½ï¿½ê·¹ï¿½Ì¼ï¿½ ï¿½ï¿½ï¿½ï¿½ï¿½ï¿½ï¿½Ô´Ï´ï¿½ : " ++ toString args.calPerc ++ "%")
    ("ï¿½Óµï¿½ï¿½ï¿½ " ++ toString speed ++ " " ++ unit ++ " ï¿½Ì»ï¿½ï¿½ï¿½ï¿½ï¿½ ï¿½ï¿½ï¿½ï¿½ï¿½ï¿½ï¿½Ö¼ï¿½ï¿½ï¿½")
    AlertStatus.normal AlertSize.mid Priority.LOWEST VisualAlert.none
    AudibleAlert.none 0 0 0.2 0 0

/-- Callback `no_gps_alert`; note `creation_delay=300.`. -/
def no_gps_alert (args : CallbackArgs) : Alert :=
  let gps_integrated : Bool := args.hwType == HwType.uno || args.hwType == HwType.dos
  mkAlert "GPS ï¿½ï¿½ï¿½ÅºÒ·ï¿½"
    (if gps_integrated then "GPS ï¿½ï¿½ï¿½ï¿½ï¿½ï¿½ï¿½ ï¿½ï¿½ ï¿½ï¿½ï¿½×³ï¿½ï¿½ï¿½ ï¿½ï¿½ï¿½ï¿½ï¿½Ï¼ï¿½ï¿½ï¿½" else "GPS ï¿½ï¿½ï¿½×³ï¿½ï¿½ï¿½ ï¿½ï¿½ï¿½ï¿½ï¿½Ï¼ï¿½ï¿½ï¿½")
    AlertStatus.normal AlertSize.mid Priority.LOWER VisualAlert.none
    AudibleAlert.none 0 0 0.2 0 300

/-- Callback `wrong_car_mode_alert`. -/
def wrong_car_mode_alert (args : CallbackArgs) : Alert :=
  let text : String := if args.carName == "honda" then "ï¿½ï¿½ï¿½ï¿½ ï¿½ï¿½ï¿½ï¿½Ä¡ OFF" else "Å©ï¿½ï¿½ï¿½ï¿½ ï¿½ï¿½È°ï¿½ï¿½ï¿½ï¿½ï¿½ï¿½"
  NoEntryAlert text AudibleAlert.chimeError VisualAlert.none 0

/-- Callback `auto_lane_change_alert`; note `alert_rate=0.75`. -/
def auto_lane_change_alert (args : CallbackArgs) : Alert :=
  mkAlert ("ï¿½Úµï¿½ï¿½ï¿½ï¿½ï¿½ï¿½ï¿½ï¿½ï¿½ï¿½ï¿½ " ++ toString args.alcTimer ++ "ï¿½ï¿½ ï¿½Ú¿ï¿½ ï¿½ï¿½ï¿½ÛµË´Ï´ï¿½")
    "ï¿½ï¿½ï¿½ï¿½ï¿½ï¿½ ï¿½ï¿½ï¿½ï¿½ï¿½ï¿½ È®ï¿½ï¿½ï¿½Ï¼ï¿½ï¿½ï¿½"
    AlertStatus.normal AlertSize.mid Priority.LOWER VisualAlert.steerRequired
    AudibleAlert.none 0 0.1 0.1 0.75 0

/-- A catalog value: either a static `Alert` instance or an alert callback
(the source's `isinstance(alert, Alert)` distinction). -/
inductive AlertEntry where
  | static (a : Alert)
  | factory (f : CallbackArgs → Alert)

/-- The `EVENTS` dict type: event identifier → (event-type string → entry),
embedded as nested association lists with unique keys in source order. -/
abbrev Catalog := List (Nat × List (String × AlertEntry))

/-- Dict lookup on the outer `EVENTS` mapping (`EVENTS.get(e)` / `EVENTS[e]`). -/
def catLookup : Catalog → Nat → Option (List (String × AlertEntry))
  | [], _ => none
  | (k, v) :: rest, e => if k = e then some v else catLookup rest e

/-- Dict lookup on an inner event-type mapping (`EVENTS[e].get(et)` /
`EVENTS[e][et]`, and `et in EVENTS[e].keys()` via `Option.isSome`). -/
def lookupET : List (String × AlertEntry) → String → Option AlertEntry
  | [], _ => none
  | (k, v) :: rest, et => if k = et then some v else lookupET rest et

/-- In-place overwrite of the value stored under a key of an inner event-type
mapping (the effect of mutating the `Alert` object held there). -/
def lookupUpdate : List (String × AlertEntry) → String → AlertEntry → List (String × AlertEntry)
  | [], _, _ => []
  | (k, v) :: rest, et, nv => if k = et then (k, nv) :: rest else (k, v) :: lookupUpdate rest et nv

/-- In-place overwrite of the entry stored under `(e, et)` of a catalog. -/
def catUpdate : Catalog → Nat → String → AlertEntry → Catalog
  | [], _, _, _ => []
  | (k, ts) :: rest, e, et, nv =>
      if k = e then (k, lookupUpdate ts et nv) :: rest else (k, ts) :: catUpdate rest e et nv

/-!
Modelled from the spec: the `car.CarEvent.EventName` enumerants of the external
cereal schema (not under `src/`): abstract distinct naturals, numbered here in
catalog order (the engine never depends on the particular values).
-/

def EventName.debugAlert : Nat := 0
def EventName.startup : Nat := 1
def EventName.startupMaster : Nat := 2
def EventName.startupNoControl : Nat := 3
def EventName.startupNoCar : Nat := 4
def EventName.startupOneplus : Nat := 5
def EventName.invalidLkasSetting : Nat := 6
def EventName.communityFeatureDisallowed : Nat := 7
def EventName.carUnrecognized : Nat := 8
def EventName.stockAeb : Nat := 9
def EventName.stockFcw : Nat := 10
def EventName.fcw : Nat := 11
def EventName.ldw : Nat := 12
def EventName.gasPressed : Nat := 13
def EventName.vehicleModelInvalid : Nat := 14
def EventName.steerTempUnavailableMute : Nat := 15
def EventName.preDriverDistracted : Nat := 16
def EventName.promptDriverDistracted : Nat := 17
def EventName.driverDistracted : Nat := 18
def EventName.preDriverUnresponsive : Nat := 19
def EventName.promptDriverUnresponsive : Nat := 20
def EventName.driverUnresponsive : Nat := 21
def EventName.driverMonitorLowAcc : Nat := 22
def EventName.manualRestart : Nat := 23
def EventName.resumeRequired : Nat := 24
def EventName.belowSteerSpeed : Nat := 25
def EventName.preLaneChangeLeft : Nat := 26
def EventName.preLaneChangeRight : Nat := 27
def EventName.laneChangeBlocked : Nat := 28
def EventName.laneChange : Nat := 29
def EventName.steerSaturated : Nat := 30
def EventName.fanMalfunction : Nat := 31
def EventName.cameraMalfunction : Nat := 32
def EventName.pcmEnable : Nat := 33
def EventName.buttonEnable : Nat := 34
def EventName.pcmDisable : Nat := 35
def EventName.buttonCancel : Nat := 36
def EventName.brakeHold : Nat := 37
def EventName.parkBrake : Nat := 38
def EventName.pedalPressed : Nat := 39
def EventName.wrongCarMode : Nat := 40
def EventName.wrongCruiseMode : Nat := 41
def EventName.steerTempUnavailable : Nat := 42
def EventName.outOfSpace : Nat := 43
def EventName.belowEngageSpeed : Nat := 44
def EventName.sensorDataInvalid : Nat := 45
def EventName.noGps : Nat := 46
def EventName.soundsUnavailable : Nat := 47
def EventName.tooDistracted : Nat := 48
def EventName.overheat : Nat := 49
def EventName.wrongGear : Nat := 50
def EventName.calibrationInvalid : Nat := 51
def EventName.calibrationIncomplete : Nat := 52
def EventName.doorOpen : Nat := 53
def EventName.seatbeltNotLatched : Nat := 54
def EventName.espDisabled : Nat := 55
def EventName.lowBattery : Nat := 56
def EventName.commIssue : Nat := 57
def EventName.radarCommIssue : Nat := 58
def EventName.radarCanError : Nat := 59
def EventName.radarFault : Nat := 60
def EventName.modeldLagging : Nat := 61
def EventName.posenetInvalid : Nat := 62
def EventName.deviceFalling : Nat := 63
def EventName.lowMemory : Nat := 64
def EventName.controlsFailed : Nat := 65
def EventName.controlsMismatch : Nat := 66
def EventName.canError : Nat := 67
def EventName.steerUnavailable : Nat := 68
def EventName.brakeUnavailable : Nat := 69
def EventName.reverseGear : Nat := 70
def EventName.cruiseDisabled : Nat := 71
def EventName.plannerError : Nat := 72
def EventName.relayMalfunction : Nat := 73
def EventName.noTarget : Nat := 74
def EventName.speedTooLow : Nat := 75
def EventName.speedTooHigh : Nat := 76
def EventName.internetConnectivityNeeded : Nat := 77
def EventName.lowSpeedLockout : Nat := 78
def EventName.turningIndicatorOn : Nat := 79
def EventName.lkasButtonOff : Nat := 80
def EventName.autoLaneChange : Nat := 81
def EventName.sccSmootherStatus : Nat := 82
def EventName.slowingDownSpeed : Nat := 83
def EventName.slowingDownSpeedSound : Nat := 84

/-- The value → name pairs of `EVENT_NAME = {v: k for k, v in
EventName.schema.enumerants.items()}`, for the identifiers this file uses. -/
def EVENT_NAME_LIST : List (Nat × String) :=
  [(EventName.debugAlert, "debugAlert"),
   (EventName.startup, "startup"),
   (EventName.startupMaster, "startupMaster"),
   (EventName.startupNoControl, "startupNoControl"),
   (EventName.startupNoCar, "startupNoCar"),
   (EventName.startupOneplus, "startupOneplus"),
   (EventName.invalidLkasSetting, "invalidLkasSetting"),
   (EventName.communityFeatureDisallowed, "communityFeatureDisallowed"),
   (EventName.carUnrecognized, "carUnrecognized"),
   (EventName.stockAeb, "stockAeb"),
   (EventName.stockFcw, "stockFcw"),
   (EventName.fcw, "fcw"),
   (EventName.ldw, "ldw"),
   (EventName.gasPressed, "gasPressed"),
   (EventName.vehicleModelInvalid, "vehicleModelInvalid"),
   (EventName.steerTempUnavailableMute, "steerTempUnavailableMute"),
   (EventName.preDriverDistracted, "preDriverDistracted"),
   (EventName.promptDriverDistracted, "promptDriverDistracted"),
   (EventName.driverDistracted, "driverDistracted"),
   (EventName.preDriverUnresponsive, "preDriverUnresponsive"),
   (EventName.promptDriverUnresponsive, "promptDriverUnresponsive"),
   (EventName.driverUnresponsive, "driverUnresponsive"),
   (EventName.driverMonitorLowAcc, "driverMonitorLowAcc"),
   (EventName.manualRestart, "manualRestart"),
   (EventName.resumeRequired, "resumeRequired"),
   (EventName.belowSteerSpeed, "belowSteerSpeed"),
   (EventName.preLaneChangeLeft, "preLaneChangeLeft"),
   (EventName.preLaneChangeRight, "preLaneChangeRight"),
   (EventName.laneChangeBlocked, "laneChangeBlocked"),
   (EventName.laneChange, "laneChange"),
   (EventName.steerSaturated, "steerSaturated"),
   (EventName.fanMalfunction, "fanMalfunction"),
   (EventName.cameraMalfunction, "cameraMalfunction"),
   (EventName.pcmEnable, "pcmEnable"),
   (EventName.buttonEnable, "buttonEnable"),
   (EventName.pcmDisable, "pcmDisable"),
   (EventName.buttonCancel, "buttonCancel"),
   (EventName.brakeHold, "brakeHold"),
   (EventName.parkBrake, "parkBrake"),
   (EventName.pedalPressed, "pedalPressed"),
   (EventName.wrongCarMode, "wrongCarMode"),
   (EventName.wrongCruiseMode, "wrongCruiseMode"),
   (EventName.steerTempUnavailable, "steerTempUnavailable"),
   (EventName.outOfSpace, "outOfSpace"),
   (EventName.belowEngageSpeed, "belowEngageSpeed"),
   (EventName.sensorDataInvalid, "sensorDataInvalid"),
   (EventName.noGps, "noGps"),
   (EventName.soundsUnavailable, "soundsUnavailable"),
   (EventName.tooDistracted, "tooDistracted"),
   (EventName.overheat, "overheat"),
   (EventName.wrongGear, "wrongGear"),
   (EventName.calibrationInvalid, "calibrationInvalid"),
   (EventName.calibrationIncomplete, "calibrationIncomplete"),
   (EventName.doorOpen, "doorOpen"),
   (EventName.seatbeltNotLatched, "seatbeltNotLatched"),
   (EventName.espDisabled, "espDisabled"),
   (EventName.lowBattery, "lowBattery"),
   (EventName.commIssue, "commIssue"),
   (EventName.radarCommIssue, "radarCommIssue"),
   (EventName.radarCanError, "radarCanError"),
   (EventName.radarFault, "radarFault"),
   (EventName.modeldLagging, "modeldLagging"),
   (EventName.posenetInvalid, "posenetInvalid"),
   (EventName.deviceFalling, "deviceFalling"),
   (EventName.lowMemory, "lowMemory"),
   (EventName.controlsFailed, "controlsFailed"),
   (EventName.controlsMismatch, "controlsMismatch"),
   (EventName.canError, "canError"),
   (EventName.steerUnavailable, "steerUnavailable"),
   (EventName.brakeUnavailable, "brakeUnavailable"),
   (EventName.reverseGear, "reverseGear"),
   (EventName.cruiseDisabled, "cruiseDisabled"),
   (EventName.plannerError, "plannerError"),
   (EventName.relayMalfunction, "relayMalfunction"),
   (EventName.noTarget, "noTarget"),
   (EventName.speedTooLow, "speedTooLow"),
   (EventName.speedTooHigh, "speedTooHigh"),
   (EventName.internetConnectivityNeeded, "internetConnectivityNeeded"),
   (EventName.lowSpeedLockout, "lowSpeedLockout"),
   (EventName.turningIndicatorOn, "turningIndicatorOn"),
   (EventName.lkasButtonOff, "lkasButtonOff"),
   (EventName.autoLaneChange, "autoLaneChange"),
   (EventName.sccSmootherStatus, "sccSmootherStatus"),
   (EventName.slowingDownSpeed, "slowingDownSpeed"),
   (EventName.slowingDownSpeedSound, "slowingDownSpeedSound")]

/-- Lookup `EVENT_NAME[e]`: the name string of an event identifier (empty for values
outside the modelled enumerants; the source only ever applies it to catalog
keys, which are all enumerants). -/
def EVENT_NAME (e : Nat) : String :=
  ((EVENT_NAME_LIST.find? (fun p => p.1 = e)).map Prod.snd).getD ""

/-- The `EventName.lkasButtonOff` catalog entry passes 11 positional arguments
to `Alert` (one string too many), so from the third argument on every value
lands one parameter to the left of the intended one and `duration_text = .1`
lands on `alert_rate`.  This is the object Python actually constructs. -/
def lkasButtonOffAlert : Alert :=
  { alert_text_1 := "ï¿½ï¿½ï¿½ï¿½ï¿½ï¿½ LKASï¿½ï¿½Æ°ï¿½ï¿½ È®ï¿½ï¿½ï¿½ï¿½ï¿½Ö¼ï¿½ï¿½ï¿½"
    alert_text_2 := ""
    alert_status := PyVal.str ""
    alert_size := PyVal.status AlertStatus.userPrompt
    alert_priority := PyVal.size AlertSize.small
    visual_alert := PyVal.prio Priority.LOW
    audible_alert := PyVal.visual VisualAlert.none
    duration_sound := PyVal.audible AudibleAlert.none
    duration_hud_alert := 0
    duration_text := 0
    alert_rate := 0.1
    creation_delay := 0
    start_time := 0
    alert_type := ""
    event_type := none }

/-- The static alert of the `EventName.startup` / `ET.PERMANENT` catalog entry
(named so theorems can refer to it). -/
def startupPermanentAlert : Alert :=
  mkAlert "ï¿½ï¿½ï¿½ï¿½ï¿½ï¿½ï¿½Ï·ï¿½ ï¿½ï¿½ï¿½ï¿½Øºï¿½ ï¿½Ï·ï¿½" "ï¿½×»ï¿½ ï¿½Úµï¿½ï¿½ï¿½ ï¿½ï¿½ï¿½ ï¿½ï¿½ï¿½Î¸ï¿½ ï¿½Ö½ï¿½ï¿½Ï¼ï¿½ï¿½ï¿½"
        AlertStatus.normal AlertSize.mid Priority.LOWER VisualAlert.none AudibleAlert.none 0 0 15 0 0

/-- The static alert of the `EventName.gasPressed` / `ET.PRE_ENABLE` catalog
entry; note `creation_delay=1.` (named so theorems can refer to it). -/
def gasPressedAlert : Alert :=
  mkAlert "ï¿½ï¿½ï¿½ï¿½ï¿½Ð´Þ°ï¿½ï¿½ï¿½ï¿½ï¿½ ï¿½ï¿½ï¿½ï¿½ï¿½ï¿½ï¿½Ï·ï¿½ï¿½ï¿½ ï¿½ê·¹ï¿½ï¿½Å©ï¿½ï¿½ ï¿½ï¿½ï¿½ï¿½ï¿½ï¿½ï¿½ï¿½Ê½ï¿½ï¿½Ï´ï¿½" ""
        AlertStatus.normal AlertSize.small Priority.LOWEST VisualAlert.none AudibleAlert.none 0.0 0.0 0.1 0 1

/-- The static alert of the `EventName.preDriverUnresponsive` / `ET.WARNING`
catalog entry; note `alert_rate=0.75` (named so theorems can refer to it). -/
def preDriverUnresponsiveAlert : Alert :=
  mkAlert "ï¿½Úµï¿½ï¿½ï¿½ ï¿½ï¿½ï¿½ï¿½Ö¼ï¿½ï¿½ï¿½ : ï¿½ï¿½ï¿½ï¿½ï¿½ï¿½ ï¿½Î½ï¿½ ï¿½Ò°ï¿½" ""
        AlertStatus.normal AlertSize.small Priority.LOW VisualAlert.steerRequired AudibleAlert.none 0.0 0.1 0.1 0.75 0

/-- The `EVENTS` catalog of the source, in source order. -/
def EVENTS : Catalog := [
  (EventName.debugAlert,
    [(ET.PERMANENT, AlertEntry.static (mkAlert "ï¿½ï¿½ï¿½ï¿½ï¿½ ï¿½ï¿½ï¿½" ""
        AlertStatus.userPrompt AlertSize.mid Priority.LOW VisualAlert.none AudibleAlert.none 0.1 0.1 0.1 0 0))]),
  (EventName.startup,
    [(ET.PERMANENT, AlertEntry.static startupPermanentAlert)]),
  (EventName.startupMaster,
    [(ET.PERMANENT, AlertEntry.static (mkAlert "ï¿½ï¿½ï¿½ï¿½ï¿½ï¿½ï¿½Ï·ï¿½ ï¿½ï¿½ï¿½ï¿½Øºï¿½ ï¿½Ï·ï¿½" "ï¿½×»ï¿½ ï¿½Úµï¿½ï¿½ï¿½ ï¿½ï¿½ï¿½ ï¿½ï¿½ï¿½Î¸ï¿½ ï¿½Ö½ï¿½ï¿½Ï¼ï¿½ï¿½ï¿½"
        AlertStatus.userPrompt AlertSize.mid Priority.LOWER VisualAlert.none AudibleAlert.none 0 0 15 0 0))]),
  (EventName.startupNoControl,
    [(ET.PERMANENT, AlertEntry.static (mkAlert "ï¿½ï¿½ï¿½Ä· ï¿½ï¿½ï¿½" "ï¿½×»ï¿½ ï¿½Úµï¿½ï¿½ï¿½ ï¿½ï¿½ï¿½ ï¿½ï¿½ï¿½Î¸ï¿½ ï¿½Ö½ï¿½ï¿½Ï¼ï¿½ï¿½ï¿½"
        AlertStatus.normal AlertSize.mid Priority.LOWER VisualAlert.none AudibleAlert.none 0 0 15 0 0))]),
  (EventName.startupNoCar,
    [(ET.PERMANENT, AlertEntry.static (mkAlert "ï¿½ï¿½ï¿½Ä· ï¿½ï¿½ï¿½ : È£È¯ï¿½ï¿½ï¿½ï¿½ï¿½Ê´ï¿½ ï¿½ï¿½ï¿½ï¿½" "ï¿½×»ï¿½ ï¿½Úµï¿½ï¿½ï¿½ ï¿½ï¿½ï¿½ ï¿½ï¿½ï¿½Î¸ï¿½ ï¿½Ö½ï¿½ï¿½Ï¼ï¿½ï¿½ï¿½"
        AlertStatus.normal AlertSize.mid Priority.LOWER VisualAlert.none AudibleAlert.none 0 0 15 0 0))]),
  (EventName.startupOneplus,
    [(ET.PERMANENT, AlertEntry.static (mkAlert "WARNING: Original EON deprecated" "Device will no longer update"
        AlertStatus.userPrompt AlertSize.mid Priority.LOWER VisualAlert.none AudibleAlert.none 0 0 15 0 0))]),
  (EventName.invalidLkasSetting,
    [(ET.PERMANENT, AlertEntry.static (mkAlert "ï¿½ï¿½ï¿½ï¿½ LKAS ï¿½ï¿½Æ° ï¿½ï¿½ï¿½ï¿½È®ï¿½ï¿½" "ï¿½ï¿½ï¿½ï¿½ LKAS ï¿½ï¿½Æ° OFFï¿½ï¿½ È°ï¿½ï¿½È­ï¿½Ë´Ï´ï¿½"
        AlertStatus.normal AlertSize.mid Priority.LOWER VisualAlert.none AudibleAlert.none 0 0 0.2 0 0))]),
  (EventName.communityFeatureDisallowed,
    [(ET.PERMANENT, AlertEntry.static (mkAlert "Ä¿ï¿½Â´ï¿½Æ¼ ï¿½ï¿½ï¿½ ï¿½ï¿½ï¿½ï¿½ï¿½ï¿½" "ï¿½ï¿½ï¿½ï¿½ï¿½Ú¼ï¿½ï¿½ï¿½ï¿½ï¿½ï¿½ï¿½ Ä¿ï¿½Â´ï¿½Æ¼ ï¿½ï¿½ï¿½ï¿½ï¿½ È°ï¿½ï¿½È­ï¿½ï¿½ï¿½Ö¼ï¿½ï¿½ï¿½"
        AlertStatus.normal AlertSize.mid Priority.LOW VisualAlert.none AudibleAlert.none 0 0 0.2 0 0))]),
  (EventName.carUnrecognized,
    [(ET.PERMANENT, AlertEntry.static (mkAlert "ï¿½ï¿½ï¿½Ä· ï¿½ï¿½ï¿½" "ï¿½ï¿½ï¿½ï¿½ï¿½Î½ï¿½ ï¿½Ò°ï¿½ - ï¿½Î°ï¿½ï¿½ï¿½ï¿½ï¿½Æ®ï¿½ï¿½ È®ï¿½ï¿½ï¿½Ï¼ï¿½ï¿½ï¿½"
        AlertStatus.normal AlertSize.mid Priority.LOWEST VisualAlert.none AudibleAlert.none 0 0 0.2 0 0))]),
  (EventName.stockAeb,
    [(ET.PERMANENT, AlertEntry.static (mkAlert "ï¿½ê·¹ï¿½ï¿½Å©!" "ï¿½ßµï¿½ ï¿½ï¿½ï¿½ï¿½"
        AlertStatus.critical AlertSize.full Priority.HIGHEST VisualAlert.fcw AudibleAlert.none 1 2 2 0 0))]),
  (EventName.stockFcw,
    [(ET.PERMANENT, AlertEntry.static (mkAlert "ï¿½ê·¹ï¿½ï¿½Å©!" "ï¿½ßµï¿½ ï¿½ï¿½ï¿½ï¿½"
        AlertStatus.critical AlertSize.full Priority.HIGHEST VisualAlert.fcw AudibleAlert.none 1 2 2 0 0))]),
  (EventName.fcw,
    [(ET.PERMANENT, AlertEntry.static (mkAlert "ï¿½ê·¹ï¿½ï¿½Å©!" "ï¿½ßµï¿½ ï¿½ï¿½ï¿½ï¿½"
        AlertStatus.critical AlertSize.full Priority.HIGHEST VisualAlert.fcw AudibleAlert.chimeWarningRepeat 1 2 2 0 0))]),
  (EventName.ldw,
    [(ET.PERMANENT, AlertEntry.static (mkAlert "ï¿½Úµï¿½ï¿½ï¿½ ï¿½ï¿½ï¿½ï¿½Ö¼ï¿½ï¿½ï¿½" "ï¿½ï¿½ï¿½ï¿½ï¿½ï¿½Å» ï¿½ï¿½ï¿½ï¿½ï¿½ï¿½"
        AlertStatus.userPrompt AlertSize.mid Priority.LOW VisualAlert.steerRequired AudibleAlert.chimePrompt 1 2 3 0 0))]),
  (EventName.gasPressed,
    [(ET.PRE_ENABLE, AlertEntry.static gasPressedAlert)]),
  (EventName.vehicleModelInvalid,
    [(ET.WARNING, AlertEntry.static (mkAlert "ï¿½ï¿½ï¿½ï¿½ ï¿½Å°ï¿½ï¿½ï¿½ï¿½ï¿½ ï¿½Äºï¿½ ï¿½ï¿½ï¿½ï¿½" ""
        AlertStatus.normal AlertSize.small Priority.LOWEST VisualAlert.steerRequired AudibleAlert.none 0.0 0.0 0.1 0 0))]),
  (EventName.steerTempUnavailableMute,
    [(ET.WARNING, AlertEntry.static (mkAlert "ï¿½Úµï¿½ï¿½ï¿½ ï¿½ï¿½ï¿½ï¿½Ö¼ï¿½ï¿½ï¿½" "ï¿½ï¿½ï¿½ï¿½ï¿½ï¿½ï¿½ï¿½ ï¿½Ï½ï¿½ï¿½ï¿½ï¿½ï¿½ï¿½ï¿½ ï¿½ï¿½ï¿½Ò°ï¿½"
        AlertStatus.userPrompt AlertSize.mid Priority.LOW VisualAlert.none AudibleAlert.none 0.2 0.2 0.2 0 0))]),
  (EventName.preDriverDistracted,
    [(ET.WARNING, AlertEntry.static (mkAlert "ï¿½ï¿½ï¿½Î¸ï¿½ ï¿½Ö½ï¿½ï¿½Ï¼ï¿½ï¿½ï¿½ : ï¿½ï¿½ï¿½ï¿½ï¿½ï¿½ ï¿½ï¿½ï¿½ï¿½ï¿½Ö½ï¿½ ï¿½Ò¾ï¿½" ""
        AlertStatus.normal AlertSize.small Priority.LOW VisualAlert.steerRequired AudibleAlert.none 0.0 0.1 0.1 0 0))]),
  (EventName.promptDriverDistracted,
    [(ET.WARNING, AlertEntry.static (mkAlert "ï¿½ï¿½ï¿½Î¸ï¿½ ï¿½Ö½ï¿½ï¿½Ï¼ï¿½ï¿½ï¿½" "ï¿½ï¿½ï¿½ï¿½ï¿½ï¿½ ï¿½ï¿½ï¿½ï¿½ï¿½Ö½ï¿½ ï¿½Ò¾ï¿½"
        AlertStatus.userPrompt AlertSize.mid Priority.MID VisualAlert.steerRequired AudibleAlert.chimeWarning2Repeat 0.1 0.1 0.1 0 0))]),
  (EventName.driverDistracted,
    [(ET.WARNING, AlertEntry.static (mkAlert "ï¿½ï¿½ï¿½ï¿½ï¿½ï¿½ï¿½î°¡ ï¿½ï¿½ï¿½ï¿½ï¿½ï¿½ ï¿½ï¿½ï¿½ï¿½ï¿½Ë´Ï´ï¿½" "ï¿½ï¿½ï¿½ï¿½ï¿½ï¿½ ï¿½ï¿½ï¿½ï¿½ï¿½Ö½ï¿½ ï¿½Ò¾ï¿½"
        AlertStatus.critical AlertSize.full Priority.HIGH VisualAlert.steerRequired AudibleAlert.chimeWarningRepeat 0.1 0.1 0.1 0 0))]),
  (EventName.preDriverUnresponsive,
    [(ET.WARNING, AlertEntry.static preDriverUnresponsiveAlert)]),
  (EventName.promptDriverUnresponsive,
    [(ET.WARNING, AlertEntry.static (mkAlert "ï¿½Úµï¿½ï¿½ï¿½ ï¿½ï¿½ï¿½ï¿½Ö¼ï¿½ï¿½ï¿½" "ï¿½ï¿½ï¿½ï¿½ï¿½ï¿½ ï¿½ï¿½ï¿½ï¿½ï¿½ï¿½ï¿½ï¿½ï¿½ï¿½ï¿½ï¿½"
        AlertStatus.userPrompt AlertSize.mid Priority.MID VisualAlert.steerRequired AudibleAlert.chimeWarning2Repeat 0.1 0.1 0.1 0 0))]),
  (EventName.driverUnresponsive,
    [(ET.WARNING, AlertEntry.static (mkAlert "ï¿½ï¿½ï¿½ï¿½ï¿½ï¿½ï¿½î°¡ ï¿½ï¿½ï¿½ï¿½ï¿½ï¿½ ï¿½ï¿½ï¿½ï¿½ï¿½Ë´Ï´ï¿½" "ï¿½ï¿½ï¿½ï¿½ï¿½ï¿½ ï¿½ï¿½ï¿½ï¿½ï¿½ï¿½ï¿½ï¿½ï¿½ï¿½ï¿½ï¿½"
        AlertStatus.critical AlertSize.full Priority.HIGH VisualAlert.steerRequired AudibleAlert.chimeWarningRepeat 0.1 0.1 0.1 0 0))]),
  (EventName.driverMonitorLowAcc,
    [(ET.WARNING, AlertEntry.static (mkAlert "ï¿½ï¿½ï¿½ï¿½ï¿½ï¿½ ï¿½ï¿½ï¿½ï¿½Í¸ï¿½ È®ï¿½ï¿½" "ï¿½ï¿½ï¿½ï¿½ï¿½ï¿½ ï¿½ï¿½ï¿½ï¿½Í¸ï¿½ ï¿½ï¿½ï¿½Â°ï¿½ ï¿½ï¿½ï¿½ï¿½ï¿½ï¿½ï¿½Ô´Ï´ï¿½"
        AlertStatus.normal AlertSize.mid Priority.LOW VisualAlert.steerRequired AudibleAlert.none 0.4 0 1.5 0 0))]),
  (EventName.manualRestart,
    [(ET.WARNING, AlertEntry.static (mkAlert "ï¿½Úµï¿½ï¿½ï¿½ ï¿½ï¿½ï¿½ï¿½Ö¼ï¿½ï¿½ï¿½" "ï¿½ï¿½ï¿½ï¿½ï¿½ï¿½ï¿½ï¿½ ï¿½ï¿½È°ï¿½ï¿½È­ï¿½Ï¼ï¿½ï¿½ï¿½"
        AlertStatus.userPrompt AlertSize.mid Priority.LOW VisualAlert.none AudibleAlert.none 0 0 0.2 0 0))]),
  (EventName.resumeRequired,
    [(ET.WARNING, AlertEntry.static (mkAlert "ï¿½ï¿½ï¿½ï¿½ï¿½ï¿½ ï¿½ï¿½ï¿½ï¿½" "ï¿½Ìµï¿½ï¿½Ï·ï¿½ï¿½ï¿½ RESï¿½ï¿½Æ°ï¿½ï¿½ ï¿½ï¿½ï¿½ï¿½ï¿½ï¿½ï¿½ï¿½"
        AlertStatus.userPrompt AlertSize.mid Priority.LOW VisualAlert.none AudibleAlert.none 0 0 0.2 0 0))]),
  (EventName.belowSteerSpeed,
    [(ET.WARNING, AlertEntry.factory below_steer_speed_alert)]),
  (EventName.preLaneChangeLeft,
    [(ET.WARNING, AlertEntry.static (mkAlert "ï¿½ï¿½ï¿½ï¿½ï¿½ï¿½ ï¿½ï¿½ï¿½ï¿½ï¿½Õ´Ï´ï¿½" "ï¿½ï¿½ï¿½ï¿½ï¿½ï¿½ï¿½ï¿½ï¿½ï¿½ ï¿½ï¿½ï¿½ï¿½ï¿½ï¿½ È®ï¿½ï¿½ï¿½Ï¼ï¿½ï¿½ï¿½"
        AlertStatus.normal AlertSize.mid Priority.LOW VisualAlert.steerRequired AudibleAlert.none 0.0 0.1 0.1 0.75 0))]),
  (EventName.preLaneChangeRight,
    [(ET.WARNING, AlertEntry.static (mkAlert "ï¿½ï¿½ï¿½ï¿½ï¿½ï¿½ ï¿½ï¿½ï¿½ï¿½ï¿½Õ´Ï´ï¿½" "ï¿½ï¿½ï¿½ï¿½ï¿½ï¿½ï¿½ï¿½ï¿½ï¿½ ï¿½ï¿½ï¿½ï¿½ï¿½ï¿½ È®ï¿½ï¿½ï¿½Ï¼ï¿½ï¿½ï¿½"
        AlertStatus.normal AlertSize.mid Priority.LOW VisualAlert.steerRequired AudibleAlert.none 0.0 0.1 0.1 0.75 0))]),
  (EventName.laneChangeBlocked,
    [(ET.WARNING, AlertEntry.static (mkAlert "ï¿½ï¿½ï¿½ï¿½ï¿½ï¿½ ï¿½ï¿½ï¿½ï¿½ï¿½ï¿½ï¿½ï¿½" "ï¿½ï¿½ï¿½ï¿½ï¿½ï¿½ ï¿½ï¿½ï¿½ï¿½ï¿½ï¿½ ï¿½ï¿½ï¿½ï¿½ï¿½Ç´ï¿½ ï¿½ï¿½ï¿½ï¿½Ï¼ï¿½ï¿½ï¿½"
        AlertStatus.normal AlertSize.mid Priority.LOW VisualAlert.steerRequired AudibleAlert.none 0.0 0.1 0.1 0 0))]),
  (EventName.laneChange,
    [(ET.WARNING, AlertEntry.static (mkAlert "ï¿½ï¿½ï¿½ï¿½ï¿½ï¿½ ï¿½ï¿½ï¿½ï¿½ï¿½Õ´Ï´ï¿½" "ï¿½ï¿½ï¿½ï¿½ï¿½ï¿½ ï¿½ï¿½ï¿½ï¿½ï¿½ï¿½ ï¿½ï¿½ï¿½ï¿½ï¿½Ï¼ï¿½ï¿½ï¿½"
        AlertStatus.normal AlertSize.mid Priority.LOW VisualAlert.steerRequired AudibleAlert.none 0.0 0.1 0.1 0 0))]),
  (EventName.steerSaturated,
    [(ET.WARNING, AlertEntry.static (mkAlert "ï¿½Úµï¿½ï¿½ï¿½ ï¿½ï¿½ï¿½ï¿½Ö¼ï¿½ï¿½ï¿½" "ï¿½ï¿½ï¿½ï¿½ï¿½ï¿½ï¿½ï¿½ ï¿½ï¿½ï¿½ï¿½ï¿½ï¿½ ï¿½Ê°ï¿½ï¿½ï¿½"
        AlertStatus.userPrompt AlertSize.mid Priority.LOW VisualAlert.steerRequired AudibleAlert.chimePrompt 1 1 1 0 0))]),
  (EventName.fanMalfunction,
    [(ET.PERMANENT, AlertEntry.static (NormalPermanentAlert "FAN ï¿½ï¿½ï¿½Ûµï¿½" "ï¿½Ïµï¿½ï¿½ï¿½î¸¦ ï¿½ï¿½ï¿½ï¿½ï¿½Ï¼ï¿½ï¿½ï¿½"))]),
  (EventName.cameraMalfunction,
    [(ET.PERMANENT, AlertEntry.static (NormalPermanentAlert "Ä«ï¿½Þ¶ï¿½ ï¿½ï¿½ï¿½Ûµï¿½" "ï¿½ï¿½Ä¡ï¿½ï¿½ ï¿½ï¿½ï¿½ï¿½ï¿½Ï¼ï¿½ï¿½ï¿½"))]),
  (EventName.pcmEnable,
    [(ET.ENABLE, AlertEntry.static (EngagementAlert AudibleAlert.chimeEngage))]),
  (EventName.buttonEnable,
    [(ET.ENABLE, AlertEntry.static (EngagementAlert AudibleAlert.chimeEngage))]),
  (EventName.pcmDisable,
    [(ET.USER_DISABLE, AlertEntry.static (EngagementAlert AudibleAlert.chimeDisengage))]),
  (EventName.buttonCancel,
    [(ET.USER_DISABLE, AlertEntry.static (EngagementAlert AudibleAlert.chimeDisengage))]),
  (EventName.brakeHold,
    [(ET.USER_DISABLE, AlertEntry.static (EngagementAlert AudibleAlert.chimeDisengage)),
     (ET.NO_ENTRY, AlertEntry.static (NoEntryAlert "ï¿½ê·¹ï¿½ï¿½Å© ï¿½ï¿½ï¿½ï¿½ï¿½ï¿½" AudibleAlert.chimeError VisualAlert.none 2))]),
  (EventName.parkBrake,
    [(ET.USER_DISABLE, AlertEntry.static (EngagementAlert AudibleAlert.chimeDisengage)),
     (ET.NO_ENTRY, AlertEntry.static (NoEntryAlert "ï¿½ï¿½ï¿½ï¿½ ï¿½ê·¹ï¿½ï¿½Å©ï¿½ï¿½ ï¿½ï¿½ï¿½ï¿½ï¿½Ï¼ï¿½ï¿½ï¿½" AudibleAlert.chimeError VisualAlert.none 2))]),
  (EventName.pedalPressed,
    [(ET.USER_DISABLE, AlertEntry.static (EngagementAlert AudibleAlert.chimeDisengage)),
     (ET.NO_ENTRY, AlertEntry.static (NoEntryAlert "ï¿½ê·¹ï¿½ï¿½Å© ï¿½ï¿½ï¿½ï¿½ï¿½ï¿½" AudibleAlert.chimeError VisualAlert.brakePressed 2))]),
  (EventName.wrongCarMode,
    [(ET.USER_DISABLE, AlertEntry.static (EngagementAlert AudibleAlert.chimeDisengage)),
     (ET.NO_ENTRY, AlertEntry.factory wrong_car_mode_alert)]),
  (EventName.wrongCruiseMode,
    [(ET.USER_DISABLE, AlertEntry.static (EngagementAlert AudibleAlert.chimeDisengage)),
     (ET.NO_ENTRY, AlertEntry.static (NoEntryAlert "ï¿½îµªÆ¼ï¿½ï¿½Å©ï¿½ï¿½ï¿½î¸¦ È°ï¿½ï¿½È­ï¿½Ï¼ï¿½ï¿½ï¿½" AudibleAlert.chimeError VisualAlert.none 2))]),
  (EventName.steerTempUnavailable,
    [(ET.WARNING, AlertEntry.static (mkAlert "ï¿½Úµï¿½ï¿½ï¿½ ï¿½ï¿½ï¿½ï¿½Ö¼ï¿½ï¿½ï¿½" "ï¿½ï¿½ï¿½ï¿½ï¿½ï¿½ï¿½ï¿½ ï¿½Ï½ï¿½ï¿½ï¿½ï¿½ï¿½ï¿½ï¿½ ï¿½ï¿½ï¿½Ò°ï¿½"
        AlertStatus.userPrompt AlertSize.mid Priority.LOW VisualAlert.steerRequired AudibleAlert.chimeWarning1 0.4 2 3 0 0)),
     (ET.NO_ENTRY, AlertEntry.static (NoEntryAlert "ï¿½ï¿½ï¿½ï¿½ï¿½ï¿½ï¿½ï¿½ ï¿½Ï½ï¿½ï¿½ï¿½ï¿½ï¿½ï¿½ï¿½ ï¿½ï¿½ï¿½Ò°ï¿½" AudibleAlert.chimeError VisualAlert.none 0))]),
  (EventName.outOfSpace,
    [(ET.PERMANENT, AlertEntry.static (mkAlert "ï¿½ï¿½ï¿½ï¿½ï¿½ï¿½ï¿½ ï¿½ï¿½ï¿½ï¿½" ""
        AlertStatus.normal AlertSize.small Priority.LOWER VisualAlert.none AudibleAlert.none 0 0 0.2 0 0)),
     (ET.NO_ENTRY, AlertEntry.static (NoEntryAlert "ï¿½ï¿½ï¿½ï¿½ï¿½ï¿½ï¿½ ï¿½ï¿½ï¿½ï¿½" AudibleAlert.chimeError VisualAlert.none 0))]),
  (EventName.belowEngageSpeed,
    [(ET.NO_ENTRY, AlertEntry.static (NoEntryAlert "ï¿½Óµï¿½ï¿½ï¿½ ï¿½ï¿½ï¿½ï¿½ï¿½Ö¼ï¿½ï¿½ï¿½" AudibleAlert.chimeError VisualAlert.none 2))]),
  (EventName.sensorDataInvalid,
    [(ET.PERMANENT, AlertEntry.static (mkAlert "ï¿½ï¿½Ä¡ ï¿½ï¿½ï¿½ï¿½ ï¿½ï¿½ï¿½ï¿½" "ï¿½ï¿½Ä¡ ï¿½ï¿½ï¿½ï¿½ï¿½ï¿½ ï¿½ç°¡ï¿½ï¿½ï¿½ï¿½ï¿½ï¿½"
        AlertStatus.normal AlertSize.mid Priority.LOWER VisualAlert.none AudibleAlert.none 0 0 0.2 0 1)),
     (ET.NO_ENTRY, AlertEntry.static (NoEntryAlert "ï¿½ï¿½Ä¡ ï¿½ï¿½ï¿½ï¿½ ï¿½ï¿½ï¿½ï¿½" AudibleAlert.chimeError VisualAlert.none 2))]),
  (EventName.noGps,
    [(ET.PERMANENT, AlertEntry.factory no_gps_alert)]),
  (EventName.soundsUnavailable,
    [(ET.PERMANENT, AlertEntry.static (NormalPermanentAlert "ï¿½ï¿½ï¿½ï¿½Ä¿ï¿½ï¿½ ï¿½ï¿½ï¿½ï¿½ï¿½ï¿½ï¿½ï¿½ï¿½Ê½ï¿½ï¿½Ï´ï¿½" "ï¿½Ì¿ï¿½ï¿½ï¿½ ï¿½ï¿½ï¿½ï¿½ï¿½ ï¿½ï¿½ï¿½Ö¼ï¿½ï¿½ï¿½")),
     (ET.NO_ENTRY, AlertEntry.static (NoEntryAlert "ï¿½ï¿½ï¿½ï¿½Ä¿ï¿½ï¿½ ï¿½ï¿½ï¿½ï¿½ï¿½ï¿½ï¿½ï¿½ï¿½Ê½ï¿½ï¿½Ï´ï¿½" AudibleAlert.chimeError VisualAlert.none 2))]),
  (EventName.tooDistracted,
    [(ET.NO_ENTRY, AlertEntry.static (NoEntryAlert "ï¿½ï¿½ï¿½ï¿½ ï¿½ï¿½ï¿½ï¿½ï¿½ï¿½ ï¿½Ê¹ï¿½ï¿½ï¿½ï¿½ï¿½" AudibleAlert.chimeError VisualAlert.none 2))]),
  (EventName.overheat,
    [(ET.PERMANENT, AlertEntry.static (mkAlert "ï¿½ï¿½Ä¡ ï¿½ï¿½ï¿½ï¿½ï¿½ï¿½" ""
        AlertStatus.normal AlertSize.small Priority.LOWER VisualAlert.none AudibleAlert.none 0 0 0.2 0 0)),
     (ET.SOFT_DISABLE, AlertEntry.static (SoftDisableAlert "ï¿½ï¿½Ä¡ ï¿½ï¿½ï¿½ï¿½ï¿½ï¿½")),
     (ET.NO_ENTRY, AlertEntry.static (NoEntryAlert "ï¿½ï¿½Ä¡ ï¿½ï¿½ï¿½ï¿½ï¿½ï¿½" AudibleAlert.chimeError VisualAlert.none 2))]),
  (EventName.wrongGear,
    [(ET.SOFT_DISABLE, AlertEntry.static (SoftDisableAlert "ï¿½ï¿½î¸¦ [D]ï¿½ï¿½ ï¿½ï¿½ï¿½ï¿½ï¿½Ï¼ï¿½ï¿½ï¿½")),
     (ET.NO_ENTRY, AlertEntry.static (NoEntryAlert "ï¿½ï¿½î¸¦ [D]ï¿½ï¿½ ï¿½ï¿½ï¿½ï¿½ï¿½Ï¼ï¿½ï¿½ï¿½" AudibleAlert.chimeError VisualAlert.none 2))]),
  (EventName.calibrationInvalid,
    [(ET.PERMANENT, AlertEntry.static (NormalPermanentAlert "Ä¶ï¿½ï¿½ï¿½ê·¹ï¿½Ì¼ï¿½ ï¿½ï¿½ï¿½ï¿½" "ï¿½ï¿½Ä¡ ï¿½ï¿½Ä¡ï¿½ï¿½ï¿½ï¿½ï¿½ï¿½ Ä¶ï¿½ï¿½ï¿½ê·¹ï¿½Ì¼ï¿½ï¿½ï¿½ ï¿½Ù½ï¿½ï¿½Ï¼ï¿½ï¿½ï¿½")),
     (ET.SOFT_DISABLE, AlertEntry.static (SoftDisableAlert "Ä¶ï¿½ï¿½ï¿½ê·¹ï¿½Ì¼ï¿½ ï¿½ï¿½ï¿½ï¿½ : ï¿½ï¿½Ä¡ ï¿½ï¿½Ä¡ï¿½ï¿½ï¿½ï¿½ï¿½ï¿½ Ä¶ï¿½ï¿½ï¿½ê·¹ï¿½Ì¼ï¿½ï¿½ï¿½ ï¿½Ù½ï¿½ï¿½Ï¼ï¿½ï¿½ï¿½")),
     (ET.NO_ENTRY, AlertEntry.static (NoEntryAlert "Ä¶ï¿½ï¿½ï¿½ê·¹ï¿½Ì¼ï¿½ ï¿½ï¿½ï¿½ï¿½ : ï¿½ï¿½Ä¡ ï¿½ï¿½Ä¡ï¿½ï¿½ï¿½ï¿½ï¿½ï¿½ Ä¶ï¿½ï¿½ï¿½ê·¹ï¿½Ì¼ï¿½ï¿½ï¿½ ï¿½Ù½ï¿½ï¿½Ï¼ï¿½ï¿½ï¿½" AudibleAlert.chimeError VisualAlert.none 2))]),
  (EventName.calibrationIncomplete,
    [(ET.PERMANENT, AlertEntry.factory calibration_incomplete_alert),
     (ET.SOFT_DISABLE, AlertEntry.static (SoftDisableAlert "Ä¶ï¿½ï¿½ï¿½ê·¹ï¿½Ì¼ï¿½ ï¿½ï¿½ï¿½ï¿½ï¿½ï¿½ï¿½Ô´Ï´ï¿½")),
     (ET.NO_ENTRY, AlertEntry.static (NoEntryAlert "Ä¶ï¿½ï¿½ï¿½ê·¹ï¿½Ì¼ï¿½ ï¿½ï¿½ï¿½ï¿½ï¿½ï¿½ï¿½Ô´Ï´ï¿½" AudibleAlert.chimeError VisualAlert.none 2))]),
  (EventName.doorOpen,
    [(ET.SOFT_DISABLE, AlertEntry.static (SoftDisableAlert "ï¿½ï¿½ï¿½ï¿½ ï¿½ï¿½ï¿½ï¿½")),
     (ET.NO_ENTRY, AlertEntry.static (NoEntryAlert "ï¿½ï¿½ï¿½ï¿½ ï¿½ï¿½ï¿½ï¿½" AudibleAlert.chimeError VisualAlert.none 2))]),
  (EventName.seatbeltNotLatched,
    [(ET.SOFT_DISABLE, AlertEntry.static (SoftDisableAlert "ï¿½ï¿½ï¿½ï¿½ï¿½ï¿½Æ®ï¿½ï¿½ ï¿½ï¿½ï¿½ï¿½ï¿½ï¿½ï¿½Ö¼ï¿½ï¿½ï¿½")),
     (ET.NO_ENTRY, AlertEntry.static (NoEntryAlert "ï¿½ï¿½ï¿½ï¿½ï¿½ï¿½Æ®ï¿½ï¿½ ï¿½ï¿½ï¿½ï¿½ï¿½ï¿½ï¿½Ö¼ï¿½ï¿½ï¿½" AudibleAlert.chimeError VisualAlert.none 2))]),
  (EventName.espDisabled,
    [(ET.SOFT_DISABLE, AlertEntry.static (SoftDisableAlert "ESP ï¿½ï¿½ï¿½ï¿½")),
     (ET.NO_ENTRY, AlertEntry.static (NoEntryAlert "ESP ï¿½ï¿½ï¿½ï¿½" AudibleAlert.chimeError VisualAlert.none 2))]),
  (EventName.lowBattery,
    [(ET.SOFT_DISABLE, AlertEntry.static (SoftDisableAlert "ï¿½ï¿½ï¿½Í¸ï¿½ ï¿½ï¿½ï¿½ï¿½")),
     (ET.NO_ENTRY, AlertEntry.static (NoEntryAlert "ï¿½ï¿½ï¿½Í¸ï¿½ ï¿½ï¿½ï¿½ï¿½" AudibleAlert.chimeError VisualAlert.none 2))]),
  (EventName.commIssue,
    [(ET.SOFT_DISABLE, AlertEntry.static (SoftDisableAlert "ï¿½ï¿½Ä¡ ï¿½ï¿½ï¿½Î¼ï¿½ï¿½ï¿½ ï¿½ï¿½Å¿ï¿½ï¿½ï¿½")),
     (ET.NO_ENTRY, AlertEntry.static (NoEntryAlert "ï¿½ï¿½Ä¡ ï¿½ï¿½ï¿½Î¼ï¿½ï¿½ï¿½ ï¿½ï¿½Å¿ï¿½ï¿½ï¿½" AudibleAlert.chimeDisengage VisualAlert.none 2))]),
  (EventName.radarCommIssue,
    [(ET.SOFT_DISABLE, AlertEntry.static (SoftDisableAlert "ï¿½ï¿½ï¿½ï¿½ ï¿½ï¿½ï¿½Ì´ï¿½ ï¿½ï¿½Å¿ï¿½ï¿½ï¿½")),
     (ET.NO_ENTRY, AlertEntry.static (NoEntryAlert "ï¿½ï¿½ï¿½ï¿½ ï¿½ï¿½ï¿½Ì´ï¿½ ï¿½ï¿½Å¿ï¿½ï¿½ï¿½" AudibleAlert.chimeDisengage VisualAlert.none 2))]),
  (EventName.radarCanError,
    [(ET.SOFT_DISABLE, AlertEntry.static (SoftDisableAlert "ï¿½ï¿½ï¿½Ì´ï¿½ ï¿½ï¿½ï¿½ï¿½ : ï¿½ï¿½ï¿½ï¿½ï¿½ï¿½ ï¿½ç°¡ï¿½ï¿½ï¿½Ï¼ï¿½ï¿½ï¿½")),
     (ET.NO_ENTRY, AlertEntry.static (NoEntryAlert "ï¿½ï¿½ï¿½Ì´ï¿½ ï¿½ï¿½ï¿½ï¿½ : ï¿½ï¿½ï¿½ï¿½ï¿½ï¿½ ï¿½ç°¡ï¿½ï¿½ï¿½Ï¼ï¿½ï¿½ï¿½" AudibleAlert.chimeError VisualAlert.none 2))]),
  (EventName.radarFault,
    [(ET.SOFT_DISABLE, AlertEntry.static (SoftDisableAlert "ï¿½ï¿½ï¿½Ì´ï¿½ ï¿½ï¿½ï¿½ï¿½ : ï¿½ï¿½ï¿½ï¿½ï¿½ï¿½ ï¿½ç°¡ï¿½ï¿½ï¿½Ï¼ï¿½ï¿½ï¿½")),
     (ET.NO_ENTRY, AlertEntry.static (NoEntryAlert "ï¿½ï¿½ï¿½Ì´ï¿½ ï¿½ï¿½ï¿½ï¿½ : ï¿½ï¿½ï¿½ï¿½ï¿½ï¿½ ï¿½ç°¡ï¿½ï¿½ï¿½Ï¼ï¿½ï¿½ï¿½" AudibleAlert.chimeError VisualAlert.none 2))]),
  (EventName.modeldLagging,
    [(ET.SOFT_DISABLE, AlertEntry.static (SoftDisableAlert "ï¿½ï¿½ï¿½ï¿½ï¿½ ï¿½ï¿½ï¿½ï¿½ï¿½ï¿½")),
     (ET.NO_ENTRY, AlertEntry.static (NoEntryAlert "ï¿½ï¿½ï¿½ï¿½ï¿½ ï¿½ï¿½ï¿½ï¿½ï¿½ï¿½" AudibleAlert.chimeError VisualAlert.none 2))]),
  (EventName.posenetInvalid,
    [(ET.SOFT_DISABLE, AlertEntry.static (SoftDisableAlert "ï¿½ï¿½ï¿½ï¿½ï¿½Î½Ä»ï¿½ï¿½Â°ï¿½ ï¿½ï¿½ï¿½ï¿½ï¿½ï¿½ï¿½ï¿½ï¿½ï¿½ ï¿½ï¿½ï¿½Ç¿ï¿½ï¿½ï¿½ï¿½Ï¼ï¿½ï¿½ï¿½")),
     (ET.NO_ENTRY, AlertEntry.static (NoEntryAlert "ï¿½ï¿½ï¿½ï¿½ï¿½Î½Ä»ï¿½ï¿½Â°ï¿½ ï¿½ï¿½ï¿½ï¿½ï¿½ï¿½ï¿½ï¿½ï¿½ï¿½ ï¿½ï¿½ï¿½Ç¿ï¿½ï¿½ï¿½ï¿½Ï¼ï¿½ï¿½ï¿½" AudibleAlert.chimeError VisualAlert.none 2))]),
  (EventName.deviceFalling,
    [(ET.SOFT_DISABLE, AlertEntry.static (SoftDisableAlert "ï¿½ï¿½Ä¡ï¿½ï¿½ ï¿½ï¿½ï¿½ï¿½Æ®ï¿½ï¿½ï¿½ï¿½ ï¿½ï¿½ï¿½ï¿½ï¿½ï¿½")),
     (ET.NO_ENTRY, AlertEntry.static (NoEntryAlert "ï¿½ï¿½Ä¡ï¿½ï¿½ ï¿½ï¿½ï¿½ï¿½Æ®ï¿½ï¿½ï¿½ï¿½ ï¿½ï¿½ï¿½ï¿½ï¿½ï¿½" AudibleAlert.chimeError VisualAlert.none 2))]),
  (EventName.lowMemory,
    [(ET.SOFT_DISABLE, AlertEntry.static (SoftDisableAlert "ï¿½Þ¸ï¿½ ï¿½ï¿½ï¿½ï¿½ : ï¿½ï¿½Ä¡ï¿½ï¿½ ï¿½ç°¡ï¿½ï¿½ï¿½Ï¼ï¿½ï¿½ï¿½")),
     (ET.PERMANENT, AlertEntry.static (NormalPermanentAlert "ï¿½Þ¸ï¿½ ï¿½ï¿½ï¿½ï¿½" "ï¿½ï¿½Ä¡ï¿½ï¿½ ï¿½ç°¡ï¿½ï¿½ï¿½Ï¼ï¿½ï¿½ï¿½")),
     (ET.NO_ENTRY, AlertEntry.static (NoEntryAlert "ï¿½Þ¸ï¿½ ï¿½ï¿½ï¿½ï¿½ : ï¿½ï¿½Ä¡ï¿½ï¿½ ï¿½ç°¡ï¿½ï¿½ï¿½Ï¼ï¿½ï¿½ï¿½" AudibleAlert.chimeDisengage VisualAlert.none 2))]),
  (EventName.controlsFailed,
    [(ET.IMMEDIATE_DISABLE, AlertEntry.static (ImmediateDisableAlert "ï¿½ï¿½Æ®ï¿½ï¿½ ï¿½ï¿½ï¿½ï¿½" immediateDisableText1)),
     (ET.NO_ENTRY, AlertEntry.static (NoEntryAlert "ï¿½ï¿½Æ®ï¿½ï¿½ ï¿½ï¿½ï¿½ï¿½" AudibleAlert.chimeError VisualAlert.none 2))]),
  (EventName.controlsMismatch,
    [(ET.IMMEDIATE_DISABLE, AlertEntry.static (ImmediateDisableAlert "ï¿½ï¿½Æ®ï¿½ï¿½ ï¿½ï¿½ï¿½ï¿½Ä¡" immediateDisableText1))]),
  (EventName.canError,
    [(ET.IMMEDIATE_DISABLE, AlertEntry.static (ImmediateDisableAlert "CAN ï¿½ï¿½ï¿½ï¿½ : ï¿½Ïµï¿½ï¿½ï¿½î¸¦ ï¿½ï¿½ï¿½ï¿½ï¿½Ï¼ï¿½ï¿½ï¿½" immediateDisableText1)),
     (ET.PERMANENT, AlertEntry.static (mkAlert "CAN ï¿½ï¿½ï¿½ï¿½ : ï¿½Ïµï¿½ï¿½ï¿½î¸¦ ï¿½ï¿½ï¿½ï¿½ï¿½Ï¼ï¿½ï¿½ï¿½" ""
        AlertStatus.normal AlertSize.small Priority.LOW VisualAlert.none AudibleAlert.none 0 0 0.2 0 1)),
     (ET.NO_ENTRY, AlertEntry.static (NoEntryAlert "CAN ï¿½ï¿½ï¿½ï¿½ : ï¿½Ïµï¿½ï¿½ï¿½î¸¦ ï¿½ï¿½ï¿½ï¿½ï¿½Ï¼ï¿½ï¿½ï¿½" AudibleAlert.chimeError VisualAlert.none 2))]),
  (EventName.steerUnavailable,
    [(ET.IMMEDIATE_DISABLE, AlertEntry.static (ImmediateDisableAlert "LKAS ï¿½ï¿½ï¿½ï¿½ : ï¿½ï¿½ï¿½ï¿½ï¿½ï¿½ ï¿½ç°¡ï¿½ï¿½ï¿½Ï¼ï¿½ï¿½ï¿½" immediateDisableText1)),
     (ET.PERMANENT, AlertEntry.static (mkAlert "LKAS ï¿½ï¿½ï¿½ï¿½ : ï¿½ï¿½ï¿½ï¿½ï¿½ï¿½ ï¿½ç°¡ï¿½ï¿½ï¿½Ï¼ï¿½ï¿½ï¿½" ""
        AlertStatus.normal AlertSize.small Priority.LOWER VisualAlert.none AudibleAlert.none 0 0 0.2 0 0)),
     (ET.NO_ENTRY, AlertEntry.static (NoEntryAlert "LKAS Fault: Restart the Car" AudibleAlert.chimeError VisualAlert.none 2))]),
  (EventName.brakeUnavailable,
    [(ET.IMMEDIATE_DISABLE, AlertEntry.static (ImmediateDisableAlert "Cruise Fault: Restart the Car" immediateDisableText1)),
     (ET.PERMANENT, AlertEntry.static (mkAlert "Å©ï¿½ï¿½ï¿½ï¿½ ï¿½ï¿½ï¿½ï¿½ : ï¿½ï¿½ï¿½ï¿½ï¿½ï¿½ ï¿½ç°¡ï¿½ï¿½ï¿½Ï¼ï¿½ï¿½ï¿½" ""
        AlertStatus.normal AlertSize.small Priority.LOWER VisualAlert.none AudibleAlert.none 0 0 0.2 0 0)),
     (ET.NO_ENTRY, AlertEntry.static (NoEntryAlert "Å©ï¿½ï¿½ï¿½ï¿½ ï¿½ï¿½ï¿½ï¿½ : ï¿½ï¿½ï¿½ï¿½ï¿½ï¿½ ï¿½ç°¡ï¿½ï¿½ï¿½Ï¼ï¿½ï¿½ï¿½" AudibleAlert.chimeError VisualAlert.none 2))]),
  (EventName.reverseGear,
    [(ET.PERMANENT, AlertEntry.static (mkAlert "ï¿½ï¿½ï¿½ [R] ï¿½ï¿½ï¿½ï¿½" ""
        AlertStatus.normal AlertSize.full Priority.LOWEST VisualAlert.none AudibleAlert.none 0 0 0.2 0 0.5)),
     (ET.SOFT_DISABLE, AlertEntry.static (SoftDisableAlert "ï¿½ï¿½ï¿½ [R] ï¿½ï¿½ï¿½ï¿½")),
     (ET.NO_ENTRY, AlertEntry.static (NoEntryAlert "ï¿½ï¿½ï¿½ [R] ï¿½ï¿½ï¿½ï¿½" AudibleAlert.chimeError VisualAlert.none 2))]),
  (EventName.cruiseDisabled,
    [(ET.IMMEDIATE_DISABLE, AlertEntry.static (ImmediateDisableAlert "Å©ï¿½ï¿½ï¿½ï¿½ ï¿½ï¿½ï¿½ï¿½" immediateDisableText1))]),
  (EventName.plannerError,
    [(ET.SOFT_DISABLE, AlertEntry.static (SoftDisableAlert "ï¿½Ã·ï¿½ï¿½ï¿½ ï¿½Ö·ï¿½ï¿½ ï¿½ï¿½ï¿½ï¿½")),
     (ET.NO_ENTRY, AlertEntry.static (NoEntryAlert "ï¿½Ã·ï¿½ï¿½ï¿½ ï¿½Ö·ï¿½ï¿½ ï¿½ï¿½ï¿½ï¿½" AudibleAlert.chimeError VisualAlert.none 2))]),
  (EventName.relayMalfunction,
    [(ET.IMMEDIATE_DISABLE, AlertEntry.static (ImmediateDisableAlert "ï¿½Ï³×½ï¿½ ï¿½ï¿½ï¿½Ûµï¿½" immediateDisableText1)),
     (ET.PERMANENT, AlertEntry.static (NormalPermanentAlert "ï¿½Ï³×½ï¿½ ï¿½ï¿½ï¿½Ûµï¿½" "ï¿½Ïµï¿½ï¿½ï¿½î¸¦ ï¿½ï¿½ï¿½ï¿½ï¿½Ï¼ï¿½ï¿½ï¿½")),
     (ET.NO_ENTRY, AlertEntry.static (NoEntryAlert "ï¿½Ï³×½ï¿½ ï¿½ï¿½ï¿½Ûµï¿½" AudibleAlert.chimeError VisualAlert.none 2))]),
  (EventName.noTarget,
    [(ET.IMMEDIATE_DISABLE, AlertEntry.static (mkAlert "ï¿½ï¿½ï¿½ï¿½ï¿½ï¿½ï¿½Ï·ï¿½ ï¿½ï¿½ï¿½Ò°ï¿½" "ï¿½ï¿½ï¿½ï¿½ ï¿½ï¿½ï¿½ï¿½ï¿½ï¿½ï¿½ï¿½ ï¿½ï¿½ï¿½ï¿½ï¿½Ï´ï¿½"
        AlertStatus.normal AlertSize.mid Priority.HIGH VisualAlert.none AudibleAlert.chimeDisengage 0.4 2 3 0 0)),
     (ET.NO_ENTRY, AlertEntry.static (NoEntryAlert "No Close Lead Car" AudibleAlert.chimeError VisualAlert.none 2))]),
  (EventName.speedTooLow,
    [(ET.IMMEDIATE_DISABLE, AlertEntry.static (mkAlert "ï¿½ï¿½ï¿½ï¿½ï¿½ï¿½ï¿½Ï·ï¿½ ï¿½ï¿½ï¿½Ò°ï¿½" "ï¿½Óµï¿½ï¿½ï¿½ ï¿½ï¿½ï¿½Ì°ï¿½ ï¿½ç°¡ï¿½ï¿½ï¿½Ï¼ï¿½ï¿½ï¿½"
        AlertStatus.normal AlertSize.mid Priority.HIGH VisualAlert.none AudibleAlert.chimeDisengage 0.4 2 3 0 0))]),
  (EventName.speedTooHigh,
    [(ET.WARNING, AlertEntry.static (mkAlert "ï¿½Óµï¿½ï¿½ï¿½ ï¿½Ê¹ï¿½ ï¿½ï¿½ï¿½ï¿½ï¿½Ï´ï¿½" "ï¿½Óµï¿½ï¿½ï¿½ ï¿½Ù¿ï¿½ï¿½Ö¼ï¿½ï¿½ï¿½"
        AlertStatus.normal AlertSize.mid Priority.HIGH VisualAlert.steerRequired AudibleAlert.none 2.2 3 4 0 0)),
     (ET.NO_ENTRY, AlertEntry.static (mkAlert "ï¿½Óµï¿½ï¿½ï¿½ ï¿½Ê¹ï¿½ ï¿½ï¿½ï¿½ï¿½ï¿½Ï´ï¿½" "ï¿½Óµï¿½ï¿½ï¿½ ï¿½ï¿½ï¿½Ì°ï¿½ ï¿½ç°¡ï¿½ï¿½ï¿½Ï¼ï¿½ï¿½ï¿½"
        AlertStatus.normal AlertSize.mid Priority.LOW VisualAlert.none AudibleAlert.chimeError 0.4 2 3 0 0))]),
  (EventName.internetConnectivityNeeded,
    [(ET.PERMANENT, AlertEntry.static (NormalPermanentAlert "ï¿½ï¿½ï¿½Í³ï¿½ï¿½ï¿½ ï¿½ï¿½ï¿½ï¿½ï¿½Ï¼ï¿½ï¿½ï¿½" "ï¿½ï¿½ï¿½ï¿½ï¿½ï¿½Æ® Ã¼Å©ï¿½ï¿½ È°ï¿½ï¿½È­ ï¿½Ë´Ï´ï¿½")),
     (ET.NO_ENTRY, AlertEntry.static (NoEntryAlert "ï¿½ï¿½ï¿½Í³ï¿½ï¿½ï¿½ ï¿½ï¿½ï¿½ï¿½ï¿½Ï¼ï¿½ï¿½ï¿½" AudibleAlert.chimeDisengage VisualAlert.none 2))]),
  (EventName.lowSpeedLockout,
    [(ET.PERMANENT, AlertEntry.static (mkAlert "Å©ï¿½ï¿½ï¿½ï¿½ ï¿½ï¿½ï¿½ï¿½ : ï¿½ï¿½ï¿½ï¿½ï¿½ï¿½ ï¿½ç°¡ï¿½ï¿½ï¿½Ï¼ï¿½ï¿½ï¿½" ""
        AlertStatus.normal AlertSize.small Priority.LOWER VisualAlert.none AudibleAlert.none 0 0 0.2 0 0)),
     (ET.NO_ENTRY, AlertEntry.static (NoEntryAlert "Å©ï¿½ï¿½ï¿½ï¿½ ï¿½ï¿½ï¿½ï¿½ : ï¿½ï¿½ï¿½ï¿½ï¿½ï¿½ ï¿½ç°¡ï¿½ï¿½ï¿½Ï¼ï¿½ï¿½ï¿½" AudibleAlert.chimeError VisualAlert.none 2))]),
  (EventName.turningIndicatorOn,
    [(ET.WARNING, AlertEntry.static (mkAlert "ï¿½ï¿½ï¿½ï¿½ï¿½ï¿½ï¿½Ãµï¿½ ï¿½ï¿½ï¿½ï¿½ï¿½ß¿ï¿½ï¿½ï¿½ ï¿½Úµï¿½ï¿½ï¿½ ï¿½ï¿½ï¿½ï¿½Ö¼ï¿½ï¿½ï¿½" ""
        AlertStatus.userPrompt AlertSize.small Priority.LOW VisualAlert.none AudibleAlert.none 0.0 0.0 0.2 0 0))]),
  (EventName.lkasButtonOff,
    [(ET.WARNING, AlertEntry.static lkasButtonOffAlert)]),
  (EventName.autoLaneChange,
    [(ET.WARNING, AlertEntry.factory auto_lane_change_alert)]),
  (EventName.sccSmootherStatus,
    [(ET.PERMANENT, AlertEntry.static (mkAlert "" ""
        AlertStatus.normal AlertSize.none Priority.HIGH VisualAlert.none AudibleAlert.chimeWarning1 0.4 0.1 0.1 0 0))]),
  (EventName.slowingDownSpeed,
    [(ET.PERMANENT, AlertEntry.static (mkAlert "ï¿½Óµï¿½ï¿½ï¿½ ï¿½ï¿½ï¿½ï¿½ï¿½Õ´Ï´ï¿½" ""
        AlertStatus.normal AlertSize.small Priority.MID VisualAlert.none AudibleAlert.none 0 0.1 0.1 0 0))]),
  (EventName.slowingDownSpeedSound,
    [(ET.PERMANENT, AlertEntry.static (mkAlert "ï¿½Óµï¿½ï¿½ï¿½ ï¿½ï¿½ï¿½ï¿½ï¿½Õ´Ï´ï¿½" ""
        AlertStatus.normal AlertSize.small Priority.HIGH VisualAlert.none AudibleAlert.chimeSlowingDownSpeed 6 2 2 0 0))])
]


/-- The mutable state of a Python `Events` object: the active event list, the
sticky list, and the per-identifier counter dict `events_prev` (embedded as a
total function; the Python dict's domain is exactly the catalog keys, every
one of which the comprehension in `clear` updates uniformly, and the code only
ever reads keys it has just found in the catalog). -/
structure Events where
  events : List Nat
  static_events : List Nat
  events_prev : Nat → Nat

/-- Constructor `Events.__init__`: empty lists, every counter 0. -/
def Events.init : Events :=
  { events := [], static_events := [], events_prev := fun _ => 0 }

/-- Method `Events.__len__`. -/
def Events.len (s : Events) : Nat :=
  s.events.length

/-- Method `Events.add(event_name, static=False)`: append to `events`, and to
`static_events` when `static`. -/
def Events.add (s : Events) (event_name : Nat) (static : Bool) : Events :=
  { s with
    static_events := if static then s.static_events ++ [event_name] else s.static_events
    events := s.events ++ [event_name] }

/-- Method `Events.clear()`: rebuild `events_prev` by
`{k: (v+1 if k in self.events else 0) for k, v in self.events_prev.items()}`
and reset `events` to a copy of `static_events`. -/
def Events.clear (s : Events) : Events :=
  { s with
    events_prev := fun k => if k ∈ s.events then s.events_prev k + 1 else 0
    events := s.static_events }

/-- One step of the loop in `Events.any`: does this event's catalog entry
(`EVENTS.get(e, {})`) contain the event type? -/
def eventHasType (e : Nat) (event_type : String) : Bool :=
  match catLookup EVENTS e with
  | some ts => (lookupET ts event_type).isSome
  | none => false

/-- The early-return loop of `Events.any`. -/
def anyAux (event_type : String) : List Nat → Bool
  | [] => false
  | e :: rest => if eventHasType e event_type then true else anyAux event_type rest

/-- Method `Events.any(event_type)`. -/
def Events.any (s : Events) (event_type : String) : Bool :=
  anyAux event_type s.events

/-- Resolution of `EVENTS[e][et]` inside `create_alerts`: a static entry is the
stored instance, a factory entry is `alert(*callback_args)`. -/
def resolveEntry : AlertEntry → CallbackArgs → Alert
  | AlertEntry.static a, _ => a
  | AlertEntry.factory f, args => f args

/-- The two field writes `create_alerts` performs on a resolved alert:
the f-string write putting `EVENT_NAME[e]`, a slash and `et` into
`alert.alert_type`, and `alert.event_type = et`. -/
def stampAlert (a : Alert) (e : Nat) (et : String) : Alert :=
  { a with alert_type := EVENT_NAME e ++ "/" ++ et, event_type := some et }

/-- The inner loop of `create_alerts` (`for et in event_types`) for one active
event `e` whose catalog entry exists: look up `et`, resolve, test the creation
delay gate `DT_CTRL * (events_prev[e] + 1) >= alert.creation_delay`, and on
success stamp the alert, append it to the result, and (for a static entry)
write the mutated object back into the catalog. -/
def processTypes (e : Nat) (prev : Nat) (args : CallbackArgs) :
    List String → Catalog → List Alert → List Alert × Catalog
  | [], cat, ret => (ret, cat)
  | et :: ets, cat, ret =>
      match catLookup cat e with
      | none => processTypes e prev args ets cat ret
      | some ts =>
          match lookupET ts et with
          | none => processTypes e prev args ets cat ret
          | some entry =>
              let a := resolveEntry entry args
              if a.creation_delay ≤ DT_CTRL * ((prev : ℚ) + 1) then
                let a2 := stampAlert a e et
                let cat2 :=
                  match entry with
                  | AlertEntry.static _ => catUpdate cat e et (AlertEntry.static a2)
                  | AlertEntry.factory _ => cat
                processTypes e prev args ets cat2 (ret ++ [a2])
              else
                processTypes e prev args ets cat ret

/-- The outer loop of `create_alerts` (`for e in self.events`):
`types = EVENTS[e].keys()` raises `KeyError` (embedded as `none`) for an
identifier absent from the catalog; mutations already performed stay in the
returned catalog. -/
def createAlertsGo (prevMap : Nat → Nat) (event_types : List String) (args : CallbackArgs) :
    List Nat → Catalog → List Alert → Option (List Alert) × Catalog
  | [], cat, ret => (some ret, cat)
  | e :: rest, cat, ret =>
      match catLookup cat e with
      | none => (none, cat)
      | some _ =>
          let p := processTypes e (prevMap e) args event_types cat ret
          createAlertsGo prevMap event_types args rest p.2 p.1

/-- Method `Events.create_alerts(event_types, callback_args)`, with the global
mutable `EVENTS` dict passed and returned explicitly; `none` in the first
component embeds an uncaught `KeyError`. -/
def Events.create_alerts (s : Events) (event_types : List String) (args : CallbackArgs)
    (cat : Catalog) : Option (List Alert) × Catalog :=
  createAlertsGo s.events_prev event_types args s.events cat []

/-- Method `Events.create_alerts` run against the initial catalog value, projected to
its result list (the view the caller receives). -/
def Events.createAlertsList (s : Events) (event_types : List String)
    (args : CallbackArgs) : Option (List Alert) :=
  (s.create_alerts event_types args EVENTS).1

/-- One `car.CarEvent` record of the message boundary: the `name` field (read
back via `e.name.raw`) and the set of event-type flag fields that
`setattr(event, event_type, True)` turned on. -/
structure CarEvent where
  name : Nat
  enabled_types : List String
deriving DecidableEq

/-- The flag fields `to_msg` sets for one identifier:
`EVENTS.get(event_name, {}).keys()`. -/
def typeKeys (e : Nat) : List String :=
  match catLookup EVENTS e with
  | some ts => ts.map Prod.fst
  | none => []

/-- Method `Events.to_msg()`: one record per entry of `events`, in order. -/
def Events.to_msg (s : Events) : List CarEvent :=
  s.events.map (fun n => { name := n, enabled_types := typeKeys n })

/-- Method `Events.add_from_msg(events)`: append each record's `name.raw` to
`events`. -/
def Events.add_from_msg (s : Events) (msgs : List CarEvent) : Events :=
  { s with events := s.events ++ msgs.map CarEvent.name }

/-- A concrete runtime snapshot, used when a property is instantiated at a
specific input. -/
def demoArgs : CallbackArgs :=
  { minSteerSpeed := 0, carName := "hyundai", metric := true,
    calPerc := 47, hwType := 0, alcTimer := 3 }

/-- Scenario: `n` control ticks in which only the identifier `e` is pushed, each tick
being `resetForNextTick` (`clear`) followed by the push (`add`), starting from
a fresh `Events` object: the state during tick `n`, after its push. -/
def runActive (e : Nat) : Nat → Events
  | 0 => Events.init
  | n + 1 => ((runActive e n).clear).add e false

/-- The five-tick scenario of the counter claim, identifier active on ticks
1-3, inactive on tick 4, active again on tick 5: state after the reset that
ends tick 1. -/
def c1r1 (e : Nat) : Events := (Events.init.add e false).clear

/-- Counter scenario: state after the reset ending tick 2. -/
def c1r2 (e : Nat) : Events := ((c1r1 e).add e false).clear

/-- Counter scenario: state after the reset ending tick 3. -/
def c1r3 (e : Nat) : Events := ((c1r2 e).add e false).clear

/-- Counter scenario: state after the reset ending tick 4 (no push on tick 4). -/
def c1r4 (e : Nat) : Events := (c1r3 e).clear

/-- Counter scenario: state after the reset ending tick 5. -/
def c1r5 (e : Nat) : Events := ((c1r4 e).add e false).clear

/-- The value of `events_prev[e]` observed after each of the five resets of
the counter scenario. -/
def c1Trace (e : Nat) : List Nat :=
  [(c1r1 e).events_prev e, (c1r2 e).events_prev e, (c1r3 e).events_prev e,
   (c1r4 e).events_prev e, (c1r5 e).events_prev e]

/-- One mutation of an `Events` object between queries: a push (`add`) or a
tick reset (`clear`). -/
inductive TickOp where
  | push (e : Nat) (static : Bool)
  | reset

/-- Apply one `TickOp`. -/
def applyOp (s : Events) : TickOp → Events
  | TickOp.push e b => s.add e b
  | TickOp.reset => s.clear

/-- Apply a sequence of `TickOp`s in order. -/
def applyOps (s : Events) : List TickOp → Events
  | [] => s
  | op :: rest => applyOps (applyOp s op) rest

/-- Erase the two fields `create_alerts` writes (`alert_type`, `event_type`)
from a static entry; a factory entry is untouched. -/
def entryScrub : AlertEntry → AlertEntry
  | AlertEntry.static a => AlertEntry.static { a with alert_type := "", event_type := none }
  | AlertEntry.factory f => AlertEntry.factory f

/-- A catalog with the `alert_type`/`event_type` fields of every stored alert
erased: the view of the catalog that `create_alerts` provably never changes. -/
def catScrub (cat : Catalog) : Catalog :=
  cat.map (fun p => (p.1, p.2.map (fun q => (q.1, entryScrub q.2))))

/-- The `alert_type` field of the static alert stored under `(e, et)` of a
catalog, if any: a probe for observing catalog mutation. -/
def catAlertTypeAt (cat : Catalog) (e : Nat) (et : String) : Option String :=
  match (catLookup cat e).bind (fun ts => lookupET ts et) with
  | some (AlertEntry.static a) => some a.alert_type
  | _ => none

/-- Written to the spec's debounce wording (corrected at the exact-multiple
boundary): on the `n`-th consecutive active tick the requested alert appears
iff `n ≥ ⌈D / T⌉`, i.e. iff the identifier has been continuously active for at
least `creationDelay` seconds of whole ticks. -/
def expectedAlerts (e : Nat) (et : String) (args : CallbackArgs) (n : Nat) :
    Option (List Alert) :=
  (catLookup EVENTS e).map fun ts =>
    match lookupET ts et with
    | none => []
    | some entry =>
        if Int.ceil ((resolveEntry entry args).creation_delay / DT_CTRL) ≤ (n : Int) then
          [stampAlert (resolveEntry entry args) e et]
        else []

lemma anyAux_eq_any (et : String) (l : List Nat) :
    anyAux et l = l.any (fun e => eventHasType e et) := by
  induction l with
  | nil => rfl
  | cons x rest ih => by_cases h : eventHasType x et <;> simp [anyAux, h, ih]

lemma eventHasType_iff (e : Nat) (et : String) :
    eventHasType e et = true
      ↔ ∃ ts, catLookup EVENTS e = some ts ∧ (lookupET ts et).isSome = true := by
  unfold eventHasType
  cases h : catLookup EVENTS e <;> simp [h]

lemma applyOps_keeps (e : Nat) (ops : List TickOp) :
    ∀ s : Events, e ∈ s.events → e ∈ s.static_events →
      e ∈ (applyOps s ops).events ∧ e ∈ (applyOps s ops).static_events := by
  induction ops with
  | nil => intro s h1 h2; exact ⟨h1, h2⟩
  | cons op rest ih =>
      intro s h1 h2
      cases op with
      | push x b =>
          apply ih
          · simp [applyOps, applyOp, Events.add]
            exact Or.inl h1
          · simp [applyOps, applyOp, Events.add]
            cases b <;> simp [h2]
      | reset =>
          apply ih
          · simpa [applyOps, applyOp, Events.clear] using h2
          · simpa [applyOps, applyOp, Events.clear] using h2

/-- C1 (counterexample): in the five-tick scenario — identifier active on
ticks 1-3, inactive on tick 4, active again on tick 5 — the `events_prev`
values observed across the five resets are not the `0,0,0,1,0` the claim
states. -/
theorem c1_counter_counterexample : c1Trace EventName.startup ≠ [0, 0, 0, 1, 0] := by
  decide

/-- C1 (amended): `Events.clear` increments an identifier's `events_prev`
counter by 1 if the identifier WAS in the previous tick's active set and
resets it to 0 if it was NOT (the counter counts consecutive active ticks,
not inactive ones); consequently the observed five-reset sequence of the
scenario is `1,2,3,0,1`. -/
theorem c1_counter_amended :
    (∀ (s : Events) (e : Nat),
        (s.clear).events_prev e = if e ∈ s.events then s.events_prev e + 1 else 0)
    ∧ c1Trace EventName.startup = [1, 2, 3, 0, 1] := by
  exact ⟨fun s e => rfl, by decide⟩

/-- C3: adding the identifier `9999`, which is absent from the catalog
(`catLookup EVENTS 9999 = none`), leaves `Events.any` returning `false`, but
`Events.create_alerts` raises `KeyError` (embedded as `none`) at
`types = EVENTS[e].keys()` — contradicting the spec's unknown-identifier
tolerance, which `any` and `to_msg` honour via `EVENTS.get(e, {})`. -/
theorem c3_unknown_identifier_keyerror :
    ((Events.init.add 9999 false).create_alerts [ET.PERMANENT] demoArgs EVENTS).1 = none
    ∧ (Events.init.add 9999 false).any ET.PERMANENT = false
    ∧ catLookup EVENTS 9999 = none := by
  exact ⟨rfl, rfl, rfl⟩

/-- C4: an identifier added with `static=True` is a member of the active event
list after every subsequent sequence of `clear` and `add` operations, however
they are interleaved and whether or not the identifier is re-pushed. -/
theorem c4_sticky_persistence (s : Events) (e : Nat) (ops : List TickOp) :
    e ∈ (applyOps (s.add e true) ops).events := by
  refine (applyOps_keeps e ops (s.add e true) ?_ ?_).1
  · simp [Events.add]
  · simp [Events.add]

/-- C5: `Events.any` is total (a Lean function into `Bool`; the source loop
uses only `EVENTS.get(e, {})`, which cannot raise) and returns `true` iff
some active identifier's catalog entry contains the requested event type. -/
theorem c5_any_total (s : Events) (et : String) :
    s.any et = true
      ↔ ∃ e, e ∈ s.events
          ∧ ∃ ts, catLookup EVENTS e = some ts ∧ (lookupET ts et).isSome = true := by
  rw [Events.any, anyAux_eq_any, List.any_eq_true]
  simp only [eventHasType_iff]

/-- C6: exporting with `to_msg` and importing the result with `add_from_msg`
into a fresh `Events` reproduces the same active event list (hence an equal
active set), and `any` answers identically on every category. -/
theorem c6_roundtrip (s : Events) :
    (Events.init.add_from_msg s.to_msg).events = s.events
    ∧ ∀ et : String, (Events.init.add_from_msg s.to_msg).any et = s.any et := by
  have hev : (Events.init.add_from_msg s.to_msg).events = s.events := by
    simp only [Events.add_from_msg, Events.to_msg, Events.init, List.map_map,
      List.nil_append]
    exact List.map_id' s.events
  exact ⟨hev, fun et => by simp [Events.any, hev]⟩

/-- C7 (counterexample): duplicate adds are observable — after adding the same
identifier twice `__len__` is 2, after adding it once it is 1, so the two
states are not observationally equal. -/
theorem c7_add_idempotent_counterexample :
    ((Events.init.add EventName.startup false).add EventName.startup false).len = 2
    ∧ (Events.init.add EventName.startup false).len = 1 := by
  exact ⟨rfl, rfl⟩

/-- C7 (amended): a duplicate `add` of the same identifier between two resets
is idempotent with respect to `any` (category membership), but not with
respect to `__len__` (and likewise `to_msg`/`create_alerts`, which emit one
item per duplicate): every `add` appends, growing `__len__` by one. -/
theorem c7_add_idempotent_amended :
    (∀ (s : Events) (e : Nat) (b : Bool) (et : String),
        ((s.add e b).add e b).any et = (s.add e b).any et)
    ∧ ∀ (s : Events) (e : Nat) (b : Bool), (s.add e b).len = s.len + 1 := by
  constructor
  · intro s e b et
    simp [Events.any, Events.add, anyAux_eq_any, Bool.or_assoc]
  · intro s e b
    simp [Events.len, Events.add]

/-- C10: `to_msg` is total and emits exactly one record per entry of the
active event list, in order — including duplicates and identifiers unknown to
the catalog — each record carrying the identifier and the set of event-type
flags its catalog entry satisfies; for the unknown identifier `9999` the
emitted record has no flags set and no error is raised. -/
theorem c10_to_msg_record_per_entry (s : Events) :
    (s.to_msg).map CarEvent.name = s.events
    ∧ (s.to_msg).map CarEvent.enabled_types = s.events.map typeKeys
    ∧ (Events.init.add 9999 false).to_msg = [{ name := 9999, enabled_types := [] }] := by
  refine ⟨?_, ?_, ?_⟩
  · simp only [Events.to_msg, List.map_map]
    exact List.map_id' s.events
  · simp [Events.to_msg, List.map_map, Function.comp]
  · rfl

lemma runActive_spec (e : Nat) (m : Nat) :
    (runActive e (m+1)).events = [e]
    ∧ (runActive e (m+1)).static_events = []
    ∧ (runActive e (m+1)).events_prev e = m := by
  induction m with
  | zero => exact ⟨rfl, rfl, by simp [runActive, Events.add, Events.clear, Events.init]⟩
  | succ n ih =>
      obtain ⟨h1, h2, h3⟩ := ih
      refine ⟨?_, ?_, ?_⟩
      · show (((runActive e (n+1)).clear).add e false).events = [e]
        simp [Events.add, Events.clear, h2]
      · show (((runActive e (n+1)).clear).add e false).static_events = []
        simp [Events.add, Events.clear, h2]
      · show (((runActive e (n+1)).clear).add e false).events_prev e = n + 1
        simp [Events.add, Events.clear, h1, h3]

lemma createAlertsList_runActive (e : Nat) (ts : List (String × AlertEntry))
    (et : String) (entry : AlertEntry) (args : CallbackArgs) (m : Nat)
    (h1 : catLookup EVENTS e = some ts) (h2 : lookupET ts et = some entry) :
    Events.createAlertsList (runActive e (m+1)) [et] args =
      some (if (resolveEntry entry args).creation_delay ≤ DT_CTRL * ((m : ℚ) + 1)
            then [stampAlert (resolveEntry entry args) e et] else []) := by
  obtain ⟨hev, _, hprev⟩ := runActive_spec e m
  unfold Events.createAlertsList Events.create_alerts
  rw [hev]
  simp only [createAlertsGo, h1, hprev, processTypes, h2]
  by_cases hg : (resolveEntry entry args).creation_delay ≤ DT_CTRL * ((m : ℚ) + 1)
  · simp [hg, createAlertsGo]
  · simp [hg, createAlertsGo]

lemma gate_iff_ceil (d : ℚ) (m : Nat) :
    (d ≤ DT_CTRL * ((m : ℚ) + 1)) ↔ (Int.ceil (d / DT_CTRL) ≤ ((m + 1 : Nat) : Int)) := by
  rw [Int.ceil_le, div_le_iff₀ (by norm_num [DT_CTRL] : (0 : ℚ) < DT_CTRL)]
  push_cast
  rw [mul_comm]

/-- C2 (amended): with the identifier continuously active from tick 1, the
requested alert is withheld on the first `⌈D/T⌉ - 1` consecutive active ticks
and returned on every later tick: on the `n`-th active tick it appears iff
`n ≥ ⌈D/T⌉`, i.e. iff `n·T ≥ D`.  When `D` is not an exact multiple of `T`
this equals the claimed `floor(D/T)` cutoff; when it is, the alert appears one
tick earlier than claimed, on tick `D/T` itself.  (Identifiers absent from the
catalog make `create_alerts` raise, and event types absent from the entry
yield no alert on any tick.) -/
theorem c2_debounce_amended (e : Nat) (et : String) (args : CallbackArgs) (m : Nat) :
    Events.createAlertsList (runActive e (m+1)) [et] args = expectedAlerts e et args (m+1) := by
  cases h1 : catLookup EVENTS e with
  | none =>
      obtain ⟨hev, _, _⟩ := runActive_spec e m
      unfold Events.createAlertsList Events.create_alerts expectedAlerts
      rw [hev]
      simp [createAlertsGo, h1]
  | some ts =>
      cases h2 : lookupET ts et with
      | none =>
          obtain ⟨hev, _, hprev⟩ := runActive_spec e m
          unfold Events.createAlertsList Events.create_alerts expectedAlerts
          rw [hev]
          simp [createAlertsGo, h1, processTypes, h2]
      | some entry =>
          rw [createAlertsList_runActive e ts et entry args m h1 h2]
          unfold expectedAlerts
          rw [h1]
          simp only [Option.map_some', h2]
          rw [if_congr (gate_iff_ceil (resolveEntry entry args).creation_delay m) rfl rfl]

/-- C2 (counterexample): `gasPressed` carries `creationDelay = 1.` s at tick
period `DT_CTRL = 0.01` s, so `floor(D/T) = 100` and the claim demands no
alert through tick 100 — yet on the 100th consecutive active tick
`create_alerts` already returns the alert. -/
theorem c2_debounce_counterexample :
    (Events.createAlertsList (runActive EventName.gasPressed 100) [ET.PRE_ENABLE] demoArgs).map
        List.length = some 1
    ∧ Int.floor (gasPressedAlert.creation_delay / DT_CTRL) = 100 := by
  constructor
  · have h := createAlertsList_runActive EventName.gasPressed
        [(ET.PRE_ENABLE, AlertEntry.static gasPressedAlert)] ET.PRE_ENABLE
        (AlertEntry.static gasPressedAlert) demoArgs 99 rfl rfl
    rw [if_pos (by norm_num [resolveEntry, gasPressedAlert, mkAlert, DT_CTRL])] at h
    rw [show (100 : Nat) = 99 + 1 from rfl, h]
    rfl
  · norm_num [gasPressedAlert, mkAlert, DT_CTRL]

/-- C9: for a catalog entry with `alert_rate > 0` whose creation-delay gate
has passed by the `(m+1)`-th consecutive active tick, `create_alerts` returns
on that tick and on the next tick one alert each, and the two returned
descriptors are the same value — content-equal — with the rate field neither
suppressing nor duplicating the alert. -/
theorem c9_rate_inert (e : Nat) (ts : List (String × AlertEntry)) (et : String)
    (entry : AlertEntry) (args : CallbackArgs) (m : Nat)
    (h1 : catLookup EVENTS e = some ts) (h2 : lookupET ts et = some entry)
    (_hrate : 0 < (resolveEntry entry args).alert_rate)
    (hgate : (resolveEntry entry args).creation_delay ≤ DT_CTRL * ((m : ℚ) + 1)) :
    Events.createAlertsList (runActive e (m+1)) [et] args
        = some [stampAlert (resolveEntry entry args) e et]
    ∧ Events.createAlertsList (runActive e (m+2)) [et] args
        = some [stampAlert (resolveEntry entry args) e et] := by
  have hgate2 : (resolveEntry entry args).creation_delay ≤ DT_CTRL * (((m + 1 : Nat) : ℚ) + 1) := by
    refine le_trans hgate ?_
    have : ((m : ℚ) + 1) ≤ (((m + 1 : Nat) : ℚ) + 1) := by push_cast; linarith
    have hpos : (0 : ℚ) ≤ DT_CTRL := by norm_num [DT_CTRL]
    exact mul_le_mul_of_nonneg_left this hpos
  constructor
  · rw [createAlertsList_runActive e ts et entry args m h1 h2, if_pos hgate]
  · rw [createAlertsList_runActive e ts et entry args (m+1) h1 h2, if_pos hgate2]

/-- Witness for C9 at a concrete input: `preDriverUnresponsive` (alert rate
`0.75`, creation delay `0`) on its first and second consecutive active
ticks. -/
theorem c9_rate_inert_witness :
    Events.createAlertsList (runActive EventName.preDriverUnresponsive 1) [ET.WARNING] demoArgs
        = some [stampAlert preDriverUnresponsiveAlert EventName.preDriverUnresponsive ET.WARNING]
    ∧ Events.createAlertsList (runActive EventName.preDriverUnresponsive 2) [ET.WARNING] demoArgs
        = some [stampAlert preDriverUnresponsiveAlert EventName.preDriverUnresponsive ET.WARNING] :=
  c9_rate_inert EventName.preDriverUnresponsive
    [(ET.WARNING, AlertEntry.static preDriverUnresponsiveAlert)] ET.WARNING
    (AlertEntry.static preDriverUnresponsiveAlert) demoArgs 0 rfl rfl
    (by norm_num [resolveEntry, preDriverUnresponsiveAlert, mkAlert])
    (by norm_num [resolveEntry, preDriverUnresponsiveAlert, mkAlert, DT_CTRL])

lemma entryScrub_stamp (a : Alert) (e : Nat) (et : String) :
    entryScrub (AlertEntry.static (stampAlert a e et)) = entryScrub (AlertEntry.static a) := rfl

lemma lookupUpdate_scrub (et : String) (entry nv : AlertEntry)
    (hs : entryScrub nv = entryScrub entry) :
    ∀ ts : List (String × AlertEntry), lookupET ts et = some entry →
      (lookupUpdate ts et nv).map (fun q => (q.1, entryScrub q.2))
        = ts.map (fun q => (q.1, entryScrub q.2)) := by
  intro ts
  induction ts with
  | nil => intro h; cases h
  | cons p rest ih =>
      obtain ⟨k, v⟩ := p
      intro h
      by_cases hk : k = et
      · have hv : entry = v := by
          simp [lookupET, hk] at h
          exact h.symm
        subst hv
        simp [lookupUpdate, hk, hs]
      · simp only [lookupET, if_neg hk] at h
        simp [lookupUpdate, hk, ih h]

lemma catUpdate_scrub (e : Nat) (et : String) (entry nv : AlertEntry)
    (hs : entryScrub nv = entryScrub entry) :
    ∀ (cat : Catalog) (ts : List (String × AlertEntry)),
      catLookup cat e = some ts → lookupET ts et = some entry →
      catScrub (catUpdate cat e et nv) = catScrub cat := by
  intro cat
  induction cat with
  | nil => intro ts h; cases h
  | cons p rest ih =>
      obtain ⟨k, v⟩ := p
      intro ts h1 h2
      by_cases hk : k = e
      · have hv : ts = v := by
          simp [catLookup, hk] at h1
          exact h1.symm
        subst hv
        simp [catUpdate, hk, catScrub, lookupUpdate_scrub et entry nv hs ts h2]
      · simp only [catLookup, if_neg hk] at h1
        simp [catUpdate, hk, catScrub] at ih ⊢
        exact ih ts h1 h2

lemma processTypes_scrub (e : Nat) (prev : Nat) (args : CallbackArgs) :
    ∀ (ets : List String) (cat : Catalog) (ret : List Alert),
      catScrub (processTypes e prev args ets cat ret).2 = catScrub cat := by
  intro ets
  induction ets with
  | nil => intro cat ret; rfl
  | cons et rest ih =>
      intro cat ret
      cases h1 : catLookup cat e with
      | none => simp [processTypes, h1, ih]
      | some ts =>
          cases h2 : lookupET ts et with
          | none => simp [processTypes, h1, h2, ih]
          | some entry =>
              by_cases hg : (resolveEntry entry args).creation_delay ≤ DT_CTRL * ((prev : ℚ) + 1)
              · cases entry with
                | factory f =>
                    simp only [processTypes, h1, h2, resolveEntry] at hg ⊢
                    rw [if_pos hg]
                    exact ih cat (ret ++ [stampAlert (f args) e et])
                | static a =>
                    have hupd : catScrub (catUpdate cat e et (AlertEntry.static (stampAlert a e et)))
                        = catScrub cat :=
                      catUpdate_scrub e et (AlertEntry.static a)
                        (AlertEntry.static (stampAlert a e et)) (entryScrub_stamp a e et)
                        cat ts h1 h2
                    simp only [processTypes, h1, h2, resolveEntry] at hg ⊢
                    rw [if_pos hg]
                    rw [ih, hupd]
              · simp [processTypes, h1, h2, hg, ih]

lemma createAlertsGo_scrub (prevMap : Nat → Nat) (ets : List String) (args : CallbackArgs) :
    ∀ (evs : List Nat) (cat : Catalog) (ret : List Alert),
      catScrub (createAlertsGo prevMap ets args evs cat ret).2 = catScrub cat := by
  intro evs
  induction evs with
  | nil => intro cat ret; rfl
  | cons e rest ih =>
      intro cat ret
      cases h : catLookup cat e with
      | none => simp [createAlertsGo, h]
      | some ts =>
          simp only [createAlertsGo, h]
          rw [ih, processTypes_scrub]

/-- C8 (amended): a call to `create_alerts` changes the catalog only by
overwriting the `alert_type` and `event_type` fields of static alerts it
returns (the two writes it performs on the stored objects); modulo those two
fields — erased by `catScrub` — the catalog, its keys and all other alert
fields are unchanged.  (`Events.any` and `Events.to_msg` read the catalog
purely and cannot change it.) -/
theorem c8_catalog_readonly_amended (s : Events) (event_types : List String)
    (args : CallbackArgs) (cat : Catalog) :
    catScrub ((s.create_alerts event_types args cat).2) = catScrub cat :=
  createAlertsGo_scrub s.events_prev event_types args s.events cat []

lemma create_alerts_single_static (s : Events) (e : Nat) (ts : List (String × AlertEntry))
    (et : String) (a : Alert) (args : CallbackArgs) (cat : Catalog)
    (hev : s.events = [e]) (h1 : catLookup cat e = some ts)
    (h2 : lookupET ts et = some (AlertEntry.static a))
    (hgate : a.creation_delay ≤ DT_CTRL * ((s.events_prev e : ℚ) + 1)) :
    s.create_alerts [et] args cat
      = (some [stampAlert a e et], catUpdate cat e et (AlertEntry.static (stampAlert a e et))) := by
  unfold Events.create_alerts
  rw [hev]
  simp only [createAlertsGo, h1, processTypes, h2, resolveEntry]
  rw [if_pos hgate]
  simp [createAlertsGo]

/-- C8 (counterexample): `create_alerts` does modify a value stored in
`EVENTS` — after one call with `startup` active, the `alert_type` field of the
catalog-held `startup`/`permanent` alert has changed from `""` to
`"startup/permanent"`. -/
theorem c8_catalog_readonly_counterexample :
    catAlertTypeAt
        (((Events.init.add EventName.startup false).create_alerts [ET.PERMANENT] demoArgs EVENTS).2)
        EventName.startup ET.PERMANENT = some "startup/permanent"
    ∧ catAlertTypeAt EVENTS EventName.startup ET.PERMANENT = some "" := by
  have h := create_alerts_single_static (Events.init.add EventName.startup false)
      EventName.startup [(ET.PERMANENT, AlertEntry.static startupPermanentAlert)]
      ET.PERMANENT startupPermanentAlert demoArgs EVENTS rfl rfl rfl
      (by norm_num [Events.init, Events.add, startupPermanentAlert, mkAlert, DT_CTRL])
  rw [h]
  exact ⟨rfl, rfl⟩
